import Mathlib

/-!
Shallow embedding of the conversation orchestration and escalation subsystem:
the WhatsApp controller state machine (whatsapp_controller.py), the escalation
router (escalation_router.py), the vendor orchestrator and vendor health store
(vendor_adapters/vendor_orchestrator.py, vendor_health/vendor_health_store.py),
and the SLA layer (sla/sla_breach_detector.py, sla/gcc_business_hours.py,
sla/sla_tracker.py).

Modelling conventions:
* Machine-level strings are Lean `String`; `str.lower()` is modelled on ASCII
  letters (Arabic text is unaffected by lowering in both systems) and
  `str.strip()` strips ASCII whitespace.
* `datetime.utcnow()` and other sources of wall-clock time are supplied as
  explicit numeric parameters (seconds).
* External effects (the internal /chat AI endpoint, the user profile store,
  the Arabic tone engine, uuid generation inside the vendor adapters) are
  supplied through an explicit environment record; the functions below thread
  all mutated state (session dict, vendor health dict, SLA dict) explicitly.
* The block at whatsapp_controller.py lines 516-543 (the AWAITING_CONFIRMATION
  handling) is written in the repository dedented to module level, which is
  not valid Python (a `return` outside a function); the evident intent, and
  the only reading under which the file parses, places it inside
  handle_message at the position it occupies, and the embedding follows that
  reading.
-/

/-- Enumeration of the session states used by whatsapp_controller.py
(`ACTIVE / WAITING_ORDER_ID / ESCALATION / CLOSED` plus the
`AWAITING_CONFIRMATION` post-resolution state set at line 672). -/
inductive SState where
  | ACTIVE
  | WAITING_ORDER_ID
  | AWAITING_CONFIRMATION
  | ESCALATION
  | CLOSED
deriving Repr, DecidableEq

/-- ASCII whitespace characters stripped by `str.strip()`. -/
def pyIsSpace (c : Char) : Bool :=
  c = ' ' || c = '\t' || c = '\n' || c = '\x0d' || c = '\x0b' || c = '\x0c'

/-- Strip leading and trailing whitespace from a character list. -/
def stripList (l : List Char) : List Char :=
  ((l.dropWhile pyIsSpace).reverse.dropWhile pyIsSpace).reverse

/-- `str.strip()`. -/
def pyStrip (text : String) : String :=
  String.mk (stripList text.data)

/-- ASCII lower-casing of a single character, as in `str.lower()`. -/
def pyLowerChar (c : Char) : Char :=
  if 'A' ≤ c && c ≤ 'Z' then Char.ofNat (c.toNat + 32) else c

/-- `str.lower()`. -/
def pyLower (text : String) : String :=
  String.mk (text.data.map pyLowerChar)

/-- `_norm` from whatsapp_controller.py: `(text or "").strip().lower()`. -/
def pyStripLower (text : String) : String :=
  String.mk ((stripList text.data).map pyLowerChar)

/-- Membership of `needle` as a contiguous sublist of the second list,
the semantics of the Python `in` operator on strings. -/
def listHasInfix (needle : List Char) : List Char → Bool
  | [] => needle.isEmpty
  | c :: rest => needle.isPrefixOf (c :: rest) || listHasInfix needle rest

/-- Python `k in t` on strings. -/
def strContains (t k : String) : Bool :=
  listHasInfix k.data t.data

/-- Word set of `_is_greeting`. -/
def greeting_words : List String :=
  ["hi", "hello", "hey", "السلام عليكم", "مرحبا", "أهلاً", "اهلا"]

/-- Word set of `_is_thanks`. -/
def thanks_words : List String :=
  ["thanks", "thank you", "thx", "شكرا", "شكرًا", "جزاك الله خير"]

/-- Word set of `_is_goodbye`. -/
def goodbye_words : List String :=
  ["bye", "goodbye", "see you", "مع السلامة", "سلام", "الى اللقاء", "إلى اللقاء"]

/-- Word set of `_is_no`. -/
def no_words : List String :=
  ["no", "nope", "nah", "لا", "لا شكرا", "لا شكرًا", "ليس الآن", "مو", "مش"]

/-- Word set of `_is_ack`. -/
def ack_words : List String :=
  ["ok", "okay", "okey", "k", "sure", "alright", "done", "تمام", "تم", "اوكي", "حسنًا", "حسنا"]

/-- Word set of `_is_yes`. -/
def yes_words : List String :=
  ["yes", "yeah", "yep", "ya", "نعم", "اي", "أجل", "تمام"]

/-- `_is_greeting`. -/
def is_greeting (text : String) : Bool := decide (pyStripLower text ∈ greeting_words)

/-- `_is_thanks`. -/
def is_thanks (text : String) : Bool := decide (pyStripLower text ∈ thanks_words)

/-- `_is_goodbye`. -/
def is_goodbye (text : String) : Bool := decide (pyStripLower text ∈ goodbye_words)

/-- `_is_no`. -/
def is_no (text : String) : Bool := decide (pyStripLower text ∈ no_words)

/-- `_is_ack`. -/
def is_ack (text : String) : Bool := decide (pyStripLower text ∈ ack_words)

/-- `_is_yes`. -/
def is_yes (text : String) : Bool := decide (pyStripLower text ∈ yes_words)

/-- English keywords of `_looks_like_order_issue`. -/
def order_issue_keywords_en : List String :=
  ["order", "delivery", "shipment", "tracking", "late", "delayed", "where is my order"]

/-- Arabic keywords of `_looks_like_order_issue`. -/
def order_issue_keywords_ar : List String :=
  ["طلب", "طلبي", "توصيل", "الشحنة", "تتبع", "متأخر", "تأخير", "وين الطلب", "تأخر التوصيل"]

/-- `_looks_like_order_issue`. -/
def looks_like_order_issue (text : String) : Bool :=
  let t := pyStripLower text
  if t = "" then false
  else if order_issue_keywords_en.any (fun k => strContains t k) then true
  else if order_issue_keywords_ar.any (fun k => strContains t k) then true
  else false

/-- Word-character class of the regex `\b` boundary: ASCII alphanumerics,
underscore, and (since Python `\w` is Unicode-aware) the Arabic block. -/
def isWordCharRe (c : Char) : Bool :=
  c.isAlphanum || c = '_' || (0x600 ≤ c.toNat && c.toNat ≤ 0x6FF)

/-- `\b` holds before the match: start of string or previous char non-word. -/
def boundaryBefore : Option Char → Bool
  | none => true
  | some c => !isWordCharRe c

/-- `\b` holds after the match: end of string or next char non-word. -/
def boundaryAfter : List Char → Bool
  | [] => true
  | c :: _ => !isWordCharRe c

/-- Descending list `[hi, hi-1, ..., lo]`, the order in which a greedy
bounded quantifier tries repetition counts. -/
def greedyCounts (lo hi : Nat) : List Nat :=
  (List.range' lo (hi + 1 - lo)).reverse

/-- Greedy match of `\d{lo,hi}` followed by `\b` at the front of `hay`:
the order-id pattern uses ASCII digits. -/
def matchDigitsRun (hay : List Char) (lo hi : Nat) : Option (List Char) :=
  (greedyCounts lo hi).findSome? fun m =>
    let pre := hay.take m
    if pre.length = m && pre.all Char.isDigit && boundaryAfter (hay.drop m) then
      some pre
    else none

/-- First alternative of `_ORDER_ID_RE`: `[A-Z]{2,5}\d{4,12}` (IGNORECASE,
so any ASCII letter) followed by `\b`. -/
def matchAlt1 (hay : List Char) : Option (List Char) :=
  (greedyCounts 2 5).findSome? fun k =>
    let pre := hay.take k
    if pre.length = k && pre.all Char.isAlpha then
      (matchDigitsRun (hay.drop k) 4 12).map (fun d => pre ++ d)
    else none

/-- Second alternative of `_ORDER_ID_RE`: `\d{6,12}` followed by `\b`. -/
def matchAlt2 (hay : List Char) : Option (List Char) :=
  matchDigitsRun hay 6 12

/-- Try both alternatives at the current position, left alternative first. -/
def matchAt (hay : List Char) : Option (List Char) :=
  match matchAlt1 hay with
  | some m => some m
  | none => matchAlt2 hay

/-- Left-to-right scan of `re.search` for `_ORDER_ID_RE`, carrying the
previous character for the leading `\b` check. -/
def searchOrderId (prev : Option Char) : List Char → Option (List Char)
  | [] =>
    if boundaryBefore prev then matchAt [] else none
  | c :: rest =>
    match (if boundaryBefore prev then matchAt (c :: rest) else none) with
    | some m => some m
    | none => searchOrderId (some c) rest

/-- `_extract_order_id`: search for `_ORDER_ID_RE` and strip the match. -/
def extract_order_id (text : String) : Option String :=
  (searchOrderId none text.data).map (fun l => String.mk (stripList l))

/-- Substrings triggering the `reset` intent. -/
def reset_keywords : List String := ["reset", "start over"]

/-- Substrings triggering the `handoff` intent. -/
def handoff_keywords : List String := ["agent", "human", "call me", "representative"]

/-- English substrings triggering the `delivery_delay` intent. -/
def delivery_keywords_en : List String :=
  ["delivery", "late", "delayed", "where is my order", "order delayed", "my order delayed"]

/-- Arabic substrings triggering the `delivery_delay` intent. -/
def delivery_keywords_ar : List String :=
  ["طلب", "طلبي", "متأخر", "تأخير", "وين الطلب", "توصيل", "الشحنة", "تأخر التوصيل"]

/-- `_detect_intent` from whatsapp_controller.py. -/
def detect_intent (text : String) : String :=
  let t := pyStripLower text
  if is_greeting t then "greeting"
  else if is_thanks t then "thanks"
  else if is_goodbye t then "goodbye"
  else if reset_keywords.any (fun k => strContains t k) then "reset"
  else if handoff_keywords.any (fun k => strContains t k) then "handoff"
  else if delivery_keywords_en.any (fun k => strContains t k) then "delivery_delay"
  else if delivery_keywords_ar.any (fun k => strContains t k) then "delivery_delay"
  else if (extract_order_id text).isSome then "order_id"
  else "other"

/-- `detect_language` from language/language_detector.py: any character in
the Arabic Unicode block makes the text Arabic, default English. -/
def detect_language (text : String) : String :=
  if text = "" then "en"
  else if text.data.any (fun c => 0x600 ≤ c.toNat && c.toNat ≤ 0x6FF) then "ar"
  else "en"

/-- Python string truthiness of an optional string (`None` and `""` falsy). -/
def pyTruthyOptStr : Option String → Bool
  | none => false
  | some s => !(s = "")

/-- Python `a or b` over optional strings, treating `None` and `""` as falsy. -/
def pyOrS : Option String → Option String → Option String
  | some s, b => if s = "" then b else some s
  | none, b => b

/-- Display of an optional string inside an f-string (`None` prints as such). -/
def optDisplay : Option String → String
  | some s => s
  | none => "None"

/-- The per-user session dict created by get_or_create_session
(whatsapp_controller.py lines 80-112). -/
structure Session where
  state : SState
  tries : Nat
  last_intent : Option String
  last_user_message : Option String
  conversation_version : Nat
  restart_count : Nat
  restart_reason : Option String
  last_closed_at : Option Nat
  language : Option String
  text_direction : String
  order_id : Option String
  asked_order_id_count : Nat
  no_count : Nat
  issue_summary : String
  ai_attempts : Nat
  last_bot_message : String
  last_user_ts : Nat
  last_bot_ts : Option Nat
  no_reply_ping_sent : Bool
  created_at : Nat
  user_id : Option String
deriving Repr, DecidableEq

/-- Fresh session created on a store miss. -/
def init_session (now : Nat) : Session :=
  { state := SState.ACTIVE
    tries := 0
    last_intent := none
    last_user_message := none
    conversation_version := 1
    restart_count := 0
    restart_reason := none
    last_closed_at := none
    language := none
    text_direction := "ltr"
    order_id := none
    asked_order_id_count := 0
    no_count := 0
    issue_summary := ""
    ai_attempts := 0
    last_bot_message := ""
    last_user_ts := now
    last_bot_ts := none
    no_reply_ping_sent := false
    created_at := now
    user_id := none }

/-- Audit events as emitted through log_event.  The import of the named
event constructors from compliance/audit_events.py fails (that module does
not define conversation_closed_event), so the controller runs with its
keyword-argument fallback builders; the constructors below carry the fields
those fallbacks receive. -/
inductive AuditEvent where
  | conversation_restart (user_id : String) (version : Nat) (restart_count : Nat)
      (restart_reason : String)
  | conversation_closed (user_id : String) (version : Nat) (reason : String)
  | escalation (user_id : String) (version : Nat) (reason : String) (rule : String)
      (priority : String)
  | sla_breach (user_id : String) (version : Nat)
  | incident_mode (user_id : String) (version : Nat)
deriving Repr, DecidableEq

/-- get_or_create_session (whatsapp_controller.py lines 77-144): create a
default ACTIVE session on a miss; on a hit whose state is CLOSED perform the
safe restart (version bump, counter resets, restart audit event). -/
def get_or_create_session (user_id : String) (now : Nat) (stored : Option Session) :
    Session × List AuditEvent :=
  match stored with
  | none => (init_session now, [])
  | some session =>
    if session.state = SState.CLOSED then
      let session :=
        { session with
          conversation_version := session.conversation_version + 1
          restart_count := session.restart_count + 1
          restart_reason := some ("user_return")
          state := SState.ACTIVE
          tries := 0
          last_intent := none
          order_id := none
          asked_order_id_count := 0
          no_count := 0
          issue_summary := ""
          ai_attempts := 0
          no_reply_ping_sent := false }
      (session,
        [AuditEvent.conversation_restart user_id session.conversation_version
          session.restart_count ("user_return")])
    else (session, [])

/-- collect_restart_kpis: the KPI signals appended for a restarted session. -/
def collect_restart_kpis (session : Session) : List String :=
  if 0 < session.restart_count then
    ["restart_after_close"] ++
      (if 3 ≤ session.restart_count then ["frequent_restarts"] else [])
  else []

/-- get_customer_priority (whatsapp_controller.py lines 158-177), returning
the (level, reason) pair and the audit events it logs. -/
def get_customer_priority (user_id : String) (session : Session)
    (kpi_signals : List String) : (String × String) × List AuditEvent :=
  if user_id.startsWith ("vip_") then (("P0", "VIP customer"), [])
  else if kpi_signals.contains ("sla_breach_detected") then
    (("P0", "SLA breach detected"),
      [AuditEvent.sla_breach user_id session.conversation_version])
  else if 3 ≤ session.restart_count then (("P1", "Frequent restarts detected"), [])
  else if session.state = SState.ESCALATION then (("P1", "Auto escalation"), [])
  else (("P2", "Standard customer"), [])

/-- The routing metadata returned by route_escalation. -/
structure Routing where
  team : String
  tier : String
  region : String
  priority : String
deriving Repr, DecidableEq

/-- The fields of the escalation payload read by route_escalation:
`kpi_flags`, `decision_trace.rule`, `conversation.last_intent`,
`user.user_id`. -/
structure RoutePayload where
  kpi_flags : List String
  decision_rule : Option String
  last_intent : Option String
  user_id : Option String
deriving Repr, DecidableEq

/-- Default routing (escalation_router.py lines 20-25). -/
def default_routing : Routing :=
  { team := "general_support", tier := "T1", region := "GLOBAL", priority := "normal" }

/-- Team routing rules including the abuse override
(escalation_router.py lines 31-40). -/
def apply_team_rules (p : RoutePayload) (r : Routing) : Routing :=
  let r :=
    if p.last_intent = some ("delivery_issue") ∨ p.last_intent = some ("order_id") then
      { r with team := "delivery_support" }
    else r
  let r :=
    if p.last_intent = some ("billing_issue") ∨ p.last_intent = some ("refund") then
      { r with team := "billing_support" }
    else r
  if p.kpi_flags.contains ("abuse_detected") then
    { r with team := "trust_and_safety", tier := "T4", priority := "urgent" }
  else r

/-- Tier rule for retry exhaustion (escalation_router.py lines 46-47). -/
def apply_retry_rule (p : RoutePayload) (r : Routing) : Routing :=
  if p.kpi_flags.contains ("retry_limit_exceeded") then { r with tier := "T2" } else r

/-- Tier rule for SLA breach risk (escalation_router.py lines 49-51). -/
def apply_sla_rule (p : RoutePayload) (r : Routing) : Routing :=
  if p.kpi_flags.contains ("sla_breach_risk") then
    { r with tier := "T3", priority := "high" }
  else r

/-- Hard tier overrides keyed on the decision rule
(escalation_router.py lines 53-55). -/
def apply_decision_rule_overrides (p : RoutePayload) (r : Routing) : Routing :=
  if p.decision_rule = some ("ESCALATE_CRITICAL") ∨
      p.decision_rule = some ("ESCALATE_ABUSE") then
    { r with tier := "T4", priority := "urgent" }
  else r

/-- Region routing from the user-id naming convention
(escalation_router.py lines 61-68). -/
def apply_region_rule (p : RoutePayload) (r : Routing) : Routing :=
  if pyTruthyOptStr p.user_id && (p.user_id.getD ("")).startsWith ("IN_") then
    { r with region := "IN" }
  else if pyTruthyOptStr p.user_id && (p.user_id.getD ("")).startsWith ("EU_") then
    { r with region := "EU" }
  else { r with region := "GLOBAL" }

/-- route_escalation (escalation_router.py): the rule blocks applied in
source order to the default routing. -/
def route_escalation (p : RoutePayload) : Routing :=
  apply_region_rule p
    (apply_decision_rule_overrides p
      (apply_sla_rule p
        (apply_retry_rule p
          (apply_team_rules p default_routing))))

/-- Numeric rank of a tier string, for monotonicity statements. -/
def tier_rank (t : String) : Nat :=
  if t = "T1" then 1
  else if t = "T2" then 2
  else if t = "T3" then 3
  else if t = "T4" then 4
  else 0

/-- The conversation context dict attached to an escalation payload
(_escalate_to_human, whatsapp_controller.py lines 806-815): the base keys
plus the per-call-site extra_context keys after the dict update. -/
structure EscContext where
  order_id : Option String
  issue_summary : String
  arabic_tone : Option String
  last_ai_answer : Option String
  last_message : Option String
deriving Repr, DecidableEq

/-- One _escalate_to_human invocation: the enriched handoff payload built
from build_handoff_payload plus the routing computed for it. -/
structure EscalationCall where
  user_id : String
  current_state : SState
  last_user_message : Option String
  last_intent : Option String
  decision_rule : String
  decision_reason : String
  kpi_flags : List String
  priority_level : String
  priority_reason : String
  language : String
  text_direction : String
  conversation_version : Nat
  context : EscContext
  routing : Routing
deriving Repr, DecidableEq

/-- Environment of one handle_message turn: the wall clock, the user profile
store lookup, the incident flag, and the external services (Arabic tone
engine, the internal /chat answering endpoint as a function of the composed
prompt and language, and the ticket id extracted from the vendor dispatch of
an escalation, none when dispatch fails). -/
structure Env where
  now : Nat
  preferred_language : Option String
  incident_mode : Bool
  arabic_tone : String → String
  ai_answer : String → String → String
  ticket_id : Option String

/-- Result of _escalate_to_human: the reply text, the mutated session, the
escalation audit event, the payload handed to routing/dispatch, and the
ticket id surfaced to the user. -/
structure EscResult where
  reply : String
  session : Session
  events : List AuditEvent
  call : EscalationCall
  ticket_id : Option String

/-- Arabic escalation acknowledgement with a ticket id. -/
def esc_reply_ar_tid (t : String) : String :=
  "شكرًا لك. سأقوم برفع الطلب للدعم البشري للمراجعة ✅ رقم التذكرة: " ++ t

/-- Arabic escalation acknowledgement without a ticket id. -/
def esc_reply_ar : String :=
  "شكرًا لك. سأقوم برفع الطلب للدعم البشري للمراجعة ✅ وسيتم التواصل معك قريبًا."

/-- English escalation acknowledgement with a ticket id. -/
def esc_reply_en_tid (t : String) : String :=
  "Thanks — I’m escalating this to our support team for further review ✅ Ticket ID: " ++ t

/-- English escalation acknowledgement without a ticket id. -/
def esc_reply_en : String :=
  "Thanks — I’m escalating this to our support team for further review ✅ They will contact you shortly."

/-- _escalate_to_human (whatsapp_controller.py lines 748-850): log the
escalation audit event, build and enrich the handoff payload, route it,
dispatch it (the extracted ticket id comes from the environment), force the
session state to ESCALATION, and phrase the acknowledgement. -/
def escalate_to_human (env : Env) (user_id : String) (session : Session)
    (language text_direction : String) (arabic_tone : Option String)
    (kpi_signals : List String) (priority : String × String)
    (decision_rule decision_reason : String)
    (extra_last_ai_answer extra_last_message : Option String) : EscResult :=
  let ev := AuditEvent.escalation user_id session.conversation_version
    decision_reason decision_rule priority.fst
  let context : EscContext :=
    { order_id := session.order_id
      issue_summary := session.issue_summary
      arabic_tone := arabic_tone
      last_ai_answer := extra_last_ai_answer
      last_message := extra_last_message }
  let payload : RoutePayload :=
    { kpi_flags := kpi_signals
      decision_rule := some decision_rule
      last_intent := session.last_intent
      user_id := some user_id }
  let routing := route_escalation payload
  let call : EscalationCall :=
    { user_id := user_id
      current_state := session.state
      last_user_message := session.last_user_message
      last_intent := session.last_intent
      decision_rule := decision_rule
      decision_reason := decision_reason
      kpi_flags := kpi_signals
      priority_level := priority.fst
      priority_reason := priority.snd
      language := language
      text_direction := text_direction
      conversation_version := session.conversation_version
      context := context
      routing := routing }
  let ticket_id := env.ticket_id
  let session := { session with state := SState.ESCALATION }
  let reply :=
    if language = "ar" then
      if pyTruthyOptStr ticket_id then esc_reply_ar_tid (ticket_id.getD (""))
      else esc_reply_ar
    else
      if pyTruthyOptStr ticket_id then esc_reply_en_tid (ticket_id.getD (""))
      else esc_reply_en
  { reply := reply
    session := session
    events := [ev]
    call := call
    ticket_id := ticket_id }

/-- _safe_set_issue_summary: keep issue_summary stable, never overwrite it
with an order-id / greeting / thanks message or a message under 8 chars. -/
def safe_set_issue_summary (session : Session) (intent : String) (msg : String) :
    Session :=
  let t := pyStrip msg
  if t = "" then session
  else if intent = "order_id" ∨ intent = "greeting" ∨ intent = "thanks" then session
  else if 8 ≤ t.length then { session with issue_summary := t }
  else session

/-- Language resolution of handle_message lines 384-387: profile preference,
then session language, then detection, then the `en` default, normalised and
restricted to `en`/`ar`. -/
def resolve_language (preferred session_language : Option String) (msg : String) :
    String :=
  let l0 := (pyOrS preferred
    (pyOrS session_language (pyOrS (some (detect_language msg)) (some ("en"))))).getD ("en")
  let l0 := if l0 = "" then "en" else l0
  let l1 := pyStripLower l0
  if l1 = "en" ∨ l1 = "ar" then l1 else "en"

/-- Escalation guard `WA_MAX_AI_ATTEMPTS` (default "2"). -/
def MAX_AI_ATTEMPTS_BEFORE_ESCALATION : Nat := 2

/-- Uncertainty markers scanned for in the AI answer. -/
def uncertain_phrases : List String :=
  ["provide a little more information",
   "share a bit more detail",
   "could you please clarify",
   "cannot confidently",
   "not enough information"]

/-- `is_uncertain`: any marker occurs in the lower-cased answer. -/
def is_uncertain (answer : String) : Bool :=
  uncertain_phrases.any (fun p => strContains (pyLower answer) p)

/-- The composed prompt sent to the internal /chat endpoint
(whatsapp_controller.py lines 604-605). -/
def compose_ai_prompt (session : Session) (msg : String) : String :=
  let issue := pyStrip session.issue_summary
  "Order ID: " ++ optDisplay session.order_id ++ "\nIssue: " ++
    (if issue = "" then msg else issue) ++ "\nCustomer message: " ++ msg

/-- Reset acknowledgement. -/
def reset_reply (language : String) : String :=
  if language = "ar" then "✅ تم إعادة ضبط المحادثة. كيف يمكنني مساعدتك اليوم؟"
  else "✅ Reset done. How may I help you today?"

/-- Close message after repeated "no" replies. -/
def declined_close_reply (language : String) : String :=
  if language = "ar" then "شكرًا لك. إذا احتجت أي مساعدة لاحقًا أنا موجود. 🌟"
  else "Thank you. If you need any help later, I’m here. 🌟"

/-- Greeting reply. -/
def greeting_reply (language : String) : String :=
  if language = "ar" then "مرحبًا! شكرًا لتواصلك مع SupportPilot. كيف يمكنني مساعدتك اليوم؟"
  else "Hello! Thank you for contacting SupportPilot. How may I assist you today?"

/-- Thanks reply. -/
def thanks_reply (language : String) : String :=
  if language = "ar" then "على الرحب والسعة. هل هناك أي شيء آخر يمكنني مساعدتك به اليوم؟"
  else "You’re most welcome. Is there anything else I can help you with today?"

/-- Goodbye reply. -/
def goodbye_reply (language : String) : String :=
  if language = "ar" then "مع السلامة! إذا احتجت أي شيء، أنا موجود. ✅"
  else "Goodbye! If you need anything else, I’m here. ✅"

/-- Courtesy reply in the AWAITING_CONFIRMATION state. -/
def confirm_courtesy_reply (language : String) : String :=
  if language = "ar" then "على الرحب والسعة ✅ هل هناك أي شيء آخر يمكنني مساعدتك به اليوم؟"
  else "You’re welcome ✅ Is there anything else I can help you with today?"

/-- Close reply on "no" in the AWAITING_CONFIRMATION state. -/
def confirm_close_reply (language : String) : String :=
  if language = "ar" then "شكرًا لتواصلك معنا. يومك سعيد 🌟"
  else "Thank you for contacting us. Have a great day 🌟"

/-- Request for the order id. -/
def ask_order_id_msg (language : String) : String :=
  if language = "ar" then
    "شكرًا لتوضيح المشكلة. هل يمكنك تزويدي برقم الطلب (Order ID) حتى أتحقق من حالة الطلب؟\nإذا لم يكن متوفرًا، يمكنك مشاركة رقم الجوال أو البريد المسجل."
  else
    "Thanks for sharing that. Could you please provide your Order ID so I can check the order status?\nIf you don’t have it, you may share your registered phone number or email."

/-- Hold acknowledgement naming the captured order id. -/
def hold_msg (language oid : String) : String :=
  if language = "ar" then
    "شكرًا لمشاركة رقم الطلب (" ++ oid ++ "). يرجى الانتظار لحظة — أنا أراجع التفاصيل الآن."
  else
    "Thanks for sharing the Order ID (" ++ oid ++ "). Please allow me a moment — I’m checking the details now."

/-- Multiple-choice clarifying question appended to the hold message. -/
def clarify_msg (language hold : String) : String :=
  if language = "ar" then
    hold ++ "\n\n" ++ "حتى أساعدك بشكل أدق، هل المشكلة هي:\n1) تأخر في التوصيل\n2) تحديث حالة الشحنة\n3) مشكلة في المنتج\nاختر رقمًا (1/2/3) أو اكتب التفاصيل."
  else
    hold ++ "\n\n" ++ "To help you accurately, is this about:\n1) Late delivery\n2) Shipment status update\n3) Product issue\nReply with 1/2/3 or share details."

/-- Generic clarification in the anti-loop fallback. -/
def fallback_clarify_msg (language : String) : String :=
  if language = "ar" then
    "شكرًا لرسالتك. لتقديم المساعدة بشكل أفضل، هل يمكنك توضيح التفاصيل أكثر؟ هل الموضوع متعلق بطلب/توصيل/استرجاع/منتج؟"
  else
    "Thank you for your message. To assist you properly, could you please share a bit more detail — is this about an order, delivery, refund/return, or a product issue?"

/-- Result of one handle_message turn: the reply, the returned meta dict
(state, and the ticket id when present), the mutated session, the audit
events logged, and the escalations performed. -/
structure HandleResult where
  reply : String
  meta_state : SState
  meta_ticket : Option (Option String)
  session : Session
  events : List AuditEvent
  escalations : List EscalationCall

/-- The part of handle_message from the order-id capture onwards
(whatsapp_controller.py lines 546-710): order/delivery flow with the
order-id ask bound and the AI-first resolution, and the generic anti-loop
fallback. -/
def issue_phase (env : Env) (user_id language text_direction : String)
    (arabic_tone : Option String) (kpi_signals : List String)
    (priority : String × String) (intent msg : String) (session : Session) :
    HandleResult :=
  let session :=
    match extract_order_id msg with
    | some oid => { session with order_id := some oid }
    | none => session
  let session := safe_set_issue_summary session intent msg
  if intent = "delivery_delay" ∨ looks_like_order_issue session.issue_summary then
    if pyTruthyOptStr session.order_id = false then
      let session :=
        { session with
          state := SState.WAITING_ORDER_ID
          asked_order_id_count := session.asked_order_id_count + 1 }
      if session.asked_order_id_count ≤ 2 then
        let out := ask_order_id_msg language
        let session := { session with last_bot_message := out, last_bot_ts := some env.now }
        { reply := out, meta_state := session.state, meta_ticket := none
          session := session, events := [], escalations := [] }
      else
        let session := { session with state := SState.ESCALATION }
        let r := escalate_to_human env user_id session language text_direction
          arabic_tone kpi_signals priority ("order_id_missing_after_2_asks")
          ("Order-related issue but Order ID not provided after 2 requests") none none
        let session := { r.session with last_bot_message := r.reply, last_bot_ts := some env.now }
        { reply := r.reply, meta_state := session.state, meta_ticket := some r.ticket_id
          session := session, events := r.events, escalations := [r.call] }
    else
      let session := { session with state := SState.ACTIVE }
      let hold := hold_msg language (optDisplay session.order_id)
      let prompt := compose_ai_prompt session msg
      let answer := env.ai_answer prompt language
      let session := { session with ai_attempts := session.ai_attempts + 1 }
      let uncertain := is_uncertain answer
      if uncertain ∧ session.ai_attempts ≤ MAX_AI_ATTEMPTS_BEFORE_ESCALATION then
        let out := clarify_msg language hold
        let session := { session with last_bot_message := out, last_bot_ts := some env.now }
        { reply := out, meta_state := session.state, meta_ticket := none
          session := session, events := [], escalations := [] }
      else if uncertain ∧ MAX_AI_ATTEMPTS_BEFORE_ESCALATION < session.ai_attempts then
        let session := { session with state := SState.ESCALATION }
        let r := escalate_to_human env user_id session language text_direction
          arabic_tone kpi_signals priority ("ai_uncertain_after_attempts")
          ("AI could not resolve confidently after multiple attempts")
          (some (answer.take 800)) none
        let session := { r.session with last_bot_message := r.reply, last_bot_ts := some env.now }
        { reply := r.reply, meta_state := session.state, meta_ticket := some r.ticket_id
          session := session, events := r.events, escalations := [r.call] }
      else
        let out := pyStrip (hold ++ "\n\n" ++ answer)
        let session :=
          { session with
            state := SState.AWAITING_CONFIRMATION
            last_bot_message := out
            last_bot_ts := some env.now }
        { reply := out, meta_state := session.state, meta_ticket := none
          session := session, events := [], escalations := [] }
  else
    let session := { session with tries := session.tries + 1 }
    if 3 ≤ session.tries then
      let session := { session with state := SState.ESCALATION }
      let r := escalate_to_human env user_id session language text_direction
        arabic_tone kpi_signals priority ("unclear_after_3_tries")
        ("User message unclear after 3 attempts") none (some msg)
      let session := { r.session with last_bot_message := r.reply, last_bot_ts := some env.now }
      { reply := r.reply, meta_state := session.state, meta_ticket := some r.ticket_id
        session := session, events := r.events, escalations := [r.call] }
    else
      let out := fallback_clarify_msg language
      let session := { session with last_bot_message := out, last_bot_ts := some env.now }
      { reply := out, meta_state := session.state, meta_ticket := none
        session := session, events := [], escalations := [] }

/-- The counter reset performed when a message in AWAITING_CONFIRMATION is
neither an acknowledgement nor a "no" (whatsapp_controller.py lines 541-543). -/
def confirmation_reset (session : Session) : Session :=
  { session with state := SState.ACTIVE, tries := 0, ai_attempts := 0 }


/-- The turn-level context computed by the opening part of handle_message
(whatsapp_controller.py lines 363-404): session bookkeeping, KPI signals,
incident audit, language resolution, intent, and priority. -/
structure PrepResult where
  session : Session
  kpi_signals : List String
  language : String
  arabic_tone : Option String
  intent : String
  priority : String × String
  pre_events : List AuditEvent

/-- Opening part of handle_message, before the intent dispatch. -/
def handle_prep (env : Env) (user_id msg : String) (kpi_in : List String)
    (stored : Option Session) : PrepResult :=
  let gc := get_or_create_session user_id env.now stored
  let s0 := gc.fst
  let s1 : Session :=
    { s0 with user_id := some user_id, last_user_ts := env.now, no_reply_ping_sent := false }
  let kpis0 := kpi_in ++ collect_restart_kpis s1
  let kpis := if env.incident_mode then kpis0 ++ ["incident_mode"] else kpis0
  let incident_events :=
    if env.incident_mode then [AuditEvent.incident_mode user_id s1.conversation_version]
    else []
  let language := resolve_language env.preferred_language s1.language msg
  -- The source guards this assignment (`if session.get("language") != language`)
  -- only to avoid a redundant set_language_preference profile write; the
  -- resulting session field is `language` on both paths.
  let s2 : Session := { s1 with language := some language }
  let s3 : Session :=
    { s2 with text_direction := if language = "ar" then "rtl" else "ltr" }
  let tone := if language = "ar" then some (env.arabic_tone msg) else none
  let s4 : Session := { s3 with last_user_message := some msg }
  let intent := detect_intent msg
  let s5 : Session := { s4 with last_intent := some intent }
  let pr := get_customer_priority user_id s5 kpis
  { session := s5
    kpi_signals := kpis
    language := language
    arabic_tone := tone
    intent := intent
    priority := pr.fst
    pre_events := gc.snd ++ incident_events ++ pr.snd }

/-- The reset branch of handle_message (lines 409-424). -/
def reset_branch (env : Env) (p : PrepResult) : HandleResult :=
  let s : Session :=
    { p.session with
      state := SState.ACTIVE, tries := 0, order_id := none
      asked_order_id_count := 0, no_count := 0, issue_summary := "", ai_attempts := 0 }
  let out := reset_reply p.language
  let s : Session := { s with last_bot_message := out, last_bot_ts := some env.now }
  { reply := out, meta_state := s.state, meta_ticket := none
    session := s, events := p.pre_events, escalations := [] }

/-- The handoff branch of handle_message (lines 426-442). -/
def handoff_branch (env : Env) (user_id : String) (p : PrepResult) : HandleResult :=
  let s : Session := { p.session with state := SState.ESCALATION }
  let r := escalate_to_human env user_id s p.language s.text_direction p.arabic_tone
    p.kpi_signals p.priority ("user_requested_handoff")
    ("Customer explicitly requested human support") none none
  let s2 : Session := { r.session with last_bot_message := r.reply, last_bot_ts := some env.now }
  { reply := r.reply, meta_state := s2.state, meta_ticket := some r.ticket_id
    session := s2, events := p.pre_events ++ r.events, escalations := [r.call] }

/-- A simple early return of handle_message: reply `out`, optionally a closed
audit event, state already set on `s`. -/
def plain_return (env : Env) (p : PrepResult) (out : String) (s : Session)
    (extra_events : List AuditEvent) : HandleResult :=
  let s2 : Session := { s with last_bot_message := out, last_bot_ts := some env.now }
  { reply := out, meta_state := s2.state, meta_ticket := none
    session := s2, events := p.pre_events ++ extra_events, escalations := [] }

/-- handle_message (whatsapp_controller.py lines 355-710): the main
conversation router for one inbound message, acting on the stored session of
the user (`stored`) and returning the reply plus the mutated session. -/
def handle_message (env : Env) (user_id msg : String) (kpi_in : List String)
    (stored : Option Session) : HandleResult :=
  let p := handle_prep env user_id msg kpi_in stored
  if p.intent = "reset" then reset_branch env p
  else if p.intent = "handoff" then handoff_branch env user_id p
  else
    let s : Session :=
      if is_no msg then { p.session with no_count := p.session.no_count + 1 }
      else { p.session with no_count := 0 }
    if is_no msg ∧ 2 ≤ s.no_count then
      plain_return env p (declined_close_reply p.language)
        { s with state := SState.CLOSED, last_closed_at := some env.now }
        [AuditEvent.conversation_closed user_id s.conversation_version ("user_declined_help")]
    else if p.intent = "greeting" then
      plain_return env p (greeting_reply p.language) s []
    else if p.intent = "thanks" then
      plain_return env p (thanks_reply p.language) s []
    else if p.intent = "goodbye" then
      plain_return env p (goodbye_reply p.language)
        { s with state := SState.CLOSED, last_closed_at := some env.now }
        [AuditEvent.conversation_closed user_id s.conversation_version ("user_goodbye")]
    else if s.state = SState.AWAITING_CONFIRMATION then
      if is_thanks msg || is_ack msg || is_yes msg then
        plain_return env p (confirm_courtesy_reply p.language) s []
      else if is_no msg then
        plain_return env p (confirm_close_reply p.language)
          { s with state := SState.CLOSED, last_closed_at := some env.now } []
      else
        let r := issue_phase env user_id p.language s.text_direction p.arabic_tone
          p.kpi_signals p.priority p.intent msg (confirmation_reset s)
        { r with events := p.pre_events ++ r.events }
    else
      let r := issue_phase env user_id p.language s.text_direction p.arabic_tone
        p.kpi_signals p.priority p.intent msg s
      { r with events := p.pre_events ++ r.events }

/-- Per-vendor circuit-breaker record of the Vendor Health Store
(vendor_health/vendor_health_store.py). -/
structure VendorRecord where
  healthy : Bool
  failures : Nat
  disabled_until : Option Nat
deriving Repr, DecidableEq

/-- `FAILURE_THRESHOLD = 3`: failures before disabling. -/
def FAILURE_THRESHOLD : Nat := 3

/-- `DISABLE_DURATION_MIN = 10`: cooldown window in minutes. -/
def DISABLE_DURATION_MIN : Nat := 10

/-- The in-memory store `_VENDOR_HEALTH` holds exactly the two vendors. -/
structure VendorStore where
  zendesk : VendorRecord
  freshdesk : VendorRecord
deriving Repr, DecidableEq

/-- Initial store: both vendors healthy with no failures. -/
def initial_vendor_store : VendorStore :=
  { zendesk := { healthy := true, failures := 0, disabled_until := none }
    freshdesk := { healthy := true, failures := 0, disabled_until := none } }

/-- `_VENDOR_HEALTH.get(vendor)`. -/
def get_vendor (st : VendorStore) (v : String) : Option VendorRecord :=
  if v = "zendesk" then some st.zendesk
  else if v = "freshdesk" then some st.freshdesk
  else none

/-- Write a vendor record back into the store. -/
def set_vendor (st : VendorStore) (v : String) (r : VendorRecord) : VendorStore :=
  if v = "zendesk" then { st with zendesk := r }
  else if v = "freshdesk" then { st with freshdesk := r }
  else st

/-- Record-level body of is_vendor_healthy: inside a cooldown return false;
past the deadline auto-recover (clear failures, restore health) and return
the restored health; with no deadline return the stored health flag.  Times
are seconds since epoch. -/
def is_vendor_healthy_record (now : Nat) (r : VendorRecord) : Bool × VendorRecord :=
  match r.disabled_until with
  | some d =>
    if now < d then (false, r)
    else
      let r2 : VendorRecord := { r with disabled_until := none, failures := 0, healthy := true }
      (r2.healthy, r2)
  | none => (r.healthy, r)

/-- is_vendor_healthy (vendor_health_store.py lines 26-41): unknown vendors
are unhealthy; otherwise the record-level check, persisting the
auto-recovery mutation. -/
def is_vendor_healthy (now : Nat) (st : VendorStore) (v : String) : Bool × VendorStore :=
  match get_vendor st v with
  | none => (false, st)
  | some r =>
    let br := is_vendor_healthy_record now r
    (br.fst, set_vendor st v br.snd)

/-- Record-level body of record_failure: bump the consecutive-failure
counter; at the threshold mark unhealthy and set the cooldown deadline. -/
def record_failure_record (now : Nat) (r : VendorRecord) : VendorRecord :=
  let r : VendorRecord := { r with failures := r.failures + 1 }
  if FAILURE_THRESHOLD ≤ r.failures then
    { r with healthy := false, disabled_until := some (now + DISABLE_DURATION_MIN * 60) }
  else r

/-- record_failure (vendor_health_store.py lines 44-52); `none` models the
KeyError raised for an unknown vendor. -/
def record_failure (now : Nat) (st : VendorStore) (v : String) : Option VendorStore :=
  (get_vendor st v).map (fun r => set_vendor st v (record_failure_record now r))

/-- Record-level body of record_success: clear the counter and restore
health immediately. -/
def record_success_record (r : VendorRecord) : VendorRecord :=
  { r with failures := 0, healthy := true, disabled_until := none }

/-- record_success (vendor_health_store.py lines 55-59); `none` models the
KeyError raised for an unknown vendor. -/
def record_success (st : VendorStore) (v : String) : Option VendorStore :=
  (get_vendor st v).map (fun r => set_vendor st v (record_success_record r))

/-- report_vendor_result (vendor_health/vendor_health_monitor.py): success
reports clear the breaker, failures feed it.  On the two known vendors the
store lookup cannot fail. -/
def report_vendor_result (now : Nat) (st : VendorStore) (v : String) (success : Bool) :
    VendorStore :=
  if success then (record_success st v).getD st
  else (record_failure now st v).getD st

/-- Observable steps of one dispatch_ticket run, recorded in order:
health-store checks, adapter invocations, and result reports. -/
inductive DispatchEvent where
  | health_check (vendor : String) (healthy : Bool)
  | adapter_call (vendor : String)
  | vendor_report (vendor : String) (success : Bool)
deriving Repr, DecidableEq

/-- What one adapter call returns, as far as the orchestrator reads it: the
`status` field and the ticket id that _extract_ticket_id finds.  The real
adapters build the full ticket dict; status is `created` unless the payload
fails schema validation, and the id is a fresh uuid, both supplied here by
the environment. -/
structure AdapterResult where
  status : String
  ticket_id : Option String
deriving Repr, DecidableEq

/-- Environment of one dispatch_ticket run: wall clock, the global incident
flag, and the outcomes of the two (simulated, uuid-bearing) adapters. -/
structure DispatchEnv where
  now : Nat
  incident_mode : Bool
  zendesk_result : AdapterResult
  freshdesk_result : AdapterResult
deriving Repr, DecidableEq

/-- The unified structure returned by dispatch_ticket. -/
structure DispatchResult where
  final_vendor : Option String
  status : String
  ticket_id : Option String
  reason : Option String
deriving Repr, DecidableEq

/-- The freshdesk fallback tail of dispatch_ticket
(vendor_orchestrator.py lines 85-97): invoked whenever zendesk was skipped
or failed; note the adapter is called without any health check. -/
def freshdesk_fallback (denv : DispatchEnv) (st : VendorStore)
    (trace : List DispatchEvent) : DispatchResult × VendorStore × List DispatchEvent :=
  let result := denv.freshdesk_result
  let success := result.status = "created"
  let st2 := report_vendor_result denv.now st ("freshdesk") success
  (⟨some ("freshdesk"), if success then "created" else "failed", result.ticket_id, none⟩,
    st2,
    trace ++ [DispatchEvent.adapter_call ("freshdesk"),
      DispatchEvent.vendor_report ("freshdesk") success])

/-- dispatch_ticket (vendor_orchestrator.py lines 43-98): queue during
incident mode; otherwise try zendesk behind a health check, reporting the
outcome, then fall back to freshdesk. -/
def dispatch_ticket (denv : DispatchEnv) (st : VendorStore) :
    DispatchResult × VendorStore × List DispatchEvent :=
  if denv.incident_mode then
    (⟨none, "queued", none, some ("incident_mode_active")⟩, st, [])
  else
    let hc := is_vendor_healthy denv.now st ("zendesk")
    let trace0 := [DispatchEvent.health_check ("zendesk") hc.fst]
    if hc.fst then
      let result := denv.zendesk_result
      let success := result.status = "created"
      let st2 := report_vendor_result denv.now hc.snd ("zendesk") success
      let trace1 := trace0 ++ [DispatchEvent.adapter_call ("zendesk"),
        DispatchEvent.vendor_report ("zendesk") success]
      if success then
        (⟨some ("zendesk"), "created", result.ticket_id, none⟩, st2, trace1)
      else freshdesk_fallback denv st2 trace1
    else freshdesk_fallback denv hc.snd trace0

/-- The `datetime.utcnow()` view used by the SLA layer: the weekday
(Monday 0 .. Sunday 6), the hour of day, and the absolute time in seconds
used for elapsed-time arithmetic. -/
structure GccNow where
  weekday : Nat
  hour : Nat
  epoch_sec : Int
deriving Repr, DecidableEq

/-- `BUSINESS_DAYS = {6, 0, 1, 2, 3}` (Sunday-Thursday). -/
def BUSINESS_DAYS : List Nat := [6, 0, 1, 2, 3]

/-- is_gcc_business_hours (sla/gcc_business_hours.py): Sunday-Thursday,
9:00-18:00. -/
def is_gcc_business_hours (now : GccNow) : Bool :=
  if BUSINESS_DAYS.contains now.weekday = false then false
  else decide (9 ≤ now.hour ∧ now.hour < 18)

/-- One SLA record of the tracker (sla/sla_tracker.py). -/
structure SlaRecord where
  priority : String
  started_at : Int
  first_response_at : Option Int
  resolved_at : Option Int
deriving Repr, DecidableEq

/-- One entry of the static policy table. -/
structure SlaPolicy where
  first_response_sec : Int
  resolution_sec : Int
deriving Repr, DecidableEq

/-- SLA_POLICIES (sla/sla_policies.py), keyed by priority level. -/
def SLA_POLICIES (priority : String) : Option SlaPolicy :=
  if priority = "low" then some ⟨300, 86400⟩
  else if priority = "normal" then some ⟨120, 14400⟩
  else if priority = "high" then some ⟨60, 3600⟩
  else if priority = "critical" then some ⟨30, 900⟩
  else none

/-- The value returned by detect_sla_breach, which is not of one uniform
shape in the source: the business-hours guard returns the two-element tuple
`[], []` while every other path returns a single list. -/
inductive BreachValue where
  | flag_list (flags : List String)
  | pair_of_lists (a b : List String)
deriving Repr, DecidableEq

/-- detect_sla_breach (sla/sla_breach_detector.py lines 12-46): pause
outside GCC business hours (returning the literal `[], []` tuple of
line 19), freeze during incident mode, otherwise compare elapsed time
against the policy deadlines.  `none` models the KeyError raised when the
record priority is not a policy key. -/
def detect_sla_breach (now : GccNow) (incident_mode : Bool) (rec : SlaRecord) :
    Option BreachValue :=
  if is_gcc_business_hours now = false then some (BreachValue.pair_of_lists [] [])
  else if incident_mode then some (BreachValue.flag_list [])
  else
    match SLA_POLICIES rec.priority with
    | none => none
    | some policy =>
      let b1 : List String :=
        if rec.first_response_at = none ∧
            policy.first_response_sec < now.epoch_sec - rec.started_at then
          ["first_response_sla_breached"]
        else []
      let b2 : List String :=
        if rec.resolved_at = none ∧
            policy.resolution_sec < now.epoch_sec - rec.started_at then
          ["resolution_sla_breached"]
        else []
      some (BreachValue.flag_list (b1 ++ b2))

/-- mark_first_response (sla/sla_tracker.py lines 20-23), acting on the
tracker entry of one user: set the first-response time only when a record
exists and the field is still unset. -/
def mark_first_response (now : Int) (rec : Option SlaRecord) : Option SlaRecord :=
  match rec with
  | none => none
  | some r =>
    if r.first_response_at = none then some { r with first_response_at := some now }
    else some r

/-- The session after the bookkeeping part of handle_message, for a stored
session that is not CLOSED. -/
def prep_session (env : Env) (uid msg : String) (s : Session) : Session :=
  { s with
    user_id := some uid
    last_user_ts := env.now
    no_reply_ping_sent := false
    language := some (resolve_language env.preferred_language s.language msg)
    text_direction :=
      if resolve_language env.preferred_language s.language msg = "ar" then "rtl" else "ltr"
    last_user_message := some msg
    last_intent := some (detect_intent msg) }

/-- The KPI signal list assembled by handle_message. -/
def prep_kpis (env : Env) (kpi_in : List String) (s : Session) : List String :=
  let k0 := kpi_in ++ collect_restart_kpis s
  if env.incident_mode then k0 ++ ["incident_mode"] else k0

/-- The result of a handle_message turn that reaches the issue phase, with
`nc` the no-counter value set by the loop-protection block. -/
def routed_issue_result (env : Env) (uid msg : String) (kpi_in : List String) (s : Session)
    (nc : Nat) : HandleResult :=
  let language := resolve_language env.preferred_language s.language msg
  let ps := prep_session env uid msg s
  let kpis := prep_kpis env kpi_in s
  let pr := get_customer_priority uid ps kpis
  let tone := if language = "ar" then some (env.arabic_tone msg) else none
  let pre_events :=
    (if env.incident_mode then [AuditEvent.incident_mode uid s.conversation_version] else [])
      ++ pr.snd
  let r := issue_phase env uid language ps.text_direction tone kpis pr.fst (detect_intent msg)
    msg { ps with no_count := nc }
  { r with events := pre_events ++ r.events }

/-- Concrete environment used by the executable witnesses. -/
def probe_env : Env :=
  { now := 100, preferred_language := none, incident_mode := false
    arabic_tone := fun m => m, ai_answer := fun _ _ => ("All set."), ticket_id := some ("T-1") }

/-- Environment whose AI endpoint always returns an uncertainty-marked answer. -/
def probe_env_unc : Env :=
  { probe_env with ai_answer := fun _ _ => ("I cannot confidently say.") }

lemma fail3_record (t1 t2 t3 : Nat) (r : VendorRecord) :
    record_failure_record t3 (record_failure_record t2 (record_failure_record t1 r)) =
      { healthy := false, failures := r.failures + 3
        disabled_until := some (t3 + DISABLE_DURATION_MIN * 60) } := by
  simp only [record_failure_record, FAILURE_THRESHOLD]
  split_ifs <;> simp_all [VendorRecord.mk.injEq]

lemma no_word_cases {x : String} (h : x ∈ no_words) :
    x = "no" ∨ x = "nope" ∨ x = "nah" ∨ x = "لا" ∨ x = "لا شكرا" ∨ x = "لا شكرًا" ∨
      x = "ليس الآن" ∨ x = "مو" ∨ x = "مش" := by
  simpa [no_words] using h

lemma detect_intent_eq_ite_of_norm (msg w : String) (h : pyStripLower msg = w)
    (hw : (is_greeting w || is_thanks w || is_goodbye w
        || reset_keywords.any (fun k => strContains w k)
        || handoff_keywords.any (fun k => strContains w k)
        || delivery_keywords_en.any (fun k => strContains w k)
        || delivery_keywords_ar.any (fun k => strContains w k)) = false) :
    detect_intent msg = (if (extract_order_id msg).isSome then "order_id" else "other") := by
  simp only [Bool.or_eq_false_iff] at hw
  obtain ⟨⟨⟨⟨⟨⟨h1, h2⟩, h3⟩, h4⟩, h5⟩, h6⟩, h7⟩ := hw
  simp only [detect_intent, h, h1, h2, h3, h4, h5, h6, h7]
  simp

lemma is_no_intent (msg : String) (h : is_no msg = true) :
    detect_intent msg = "other" ∨ detect_intent msg = "order_id" := by
  have hm : pyStripLower msg ∈ no_words := by simpa [is_no] using h
  rcases no_word_cases hm with h0|h0|h0|h0|h0|h0|h0|h0|h0 <;>
    rw [detect_intent_eq_ite_of_norm msg _ h0 (by decide)] <;>
    (cases hx : (extract_order_id msg).isSome <;> simp [hx])

lemma ack_yes_word_cases {x : String} (h : x ∈ ack_words ∨ x ∈ yes_words) :
    x = "ok" ∨ x = "okay" ∨ x = "okey" ∨ x = "k" ∨ x = "sure" ∨ x = "alright" ∨
      x = "done" ∨ x = "تمام" ∨ x = "تم" ∨ x = "اوكي" ∨ x = "حسنًا" ∨ x = "حسنا" ∨
      x = "yes" ∨ x = "yeah" ∨ x = "yep" ∨ x = "ya" ∨ x = "نعم" ∨ x = "اي" ∨ x = "أجل" := by
  rcases h with h | h <;> simp [ack_words, yes_words] at h <;> tauto

lemma is_ack_yes_intent (msg : String) (h : is_ack msg = true ∨ is_yes msg = true) :
    detect_intent msg = "other" ∨ detect_intent msg = "order_id" := by
  have hm : pyStripLower msg ∈ ack_words ∨ pyStripLower msg ∈ yes_words := by
    rcases h with h | h
    · exact Or.inl (by simpa [is_ack] using h)
    · exact Or.inr (by simpa [is_yes] using h)
  rcases ack_yes_word_cases hm with
    h0|h0|h0|h0|h0|h0|h0|h0|h0|h0|h0|h0|h0|h0|h0|h0|h0|h0|h0 <;>
    rw [detect_intent_eq_ite_of_norm msg _ h0 (by decide)] <;>
    (cases hx : (extract_order_id msg).isSome <;> simp [hx])

lemma is_thanks_intent (msg : String) (h : is_thanks msg = true) :
    detect_intent msg = "thanks" := by
  have hm : pyStripLower msg ∈ thanks_words := by simpa [is_thanks] using h
  simp [thanks_words] at hm
  rcases hm with h0|h0|h0|h0|h0|h0 <;>
    · simp only [detect_intent, h0]
      rw [if_neg (by decide), if_pos (by decide)]

lemma is_no_not_ack_like (msg : String) (h : is_no msg = true) :
    is_thanks msg = false ∧ is_ack msg = false ∧ is_yes msg = false := by
  have hm : pyStripLower msg ∈ no_words := by simpa [is_no] using h
  rcases no_word_cases hm with h0|h0|h0|h0|h0|h0|h0|h0|h0 <;>
    simp [is_thanks, is_ack, is_yes, h0] <;> decide

lemma ack_like_not_no (msg : String)
    (h : is_thanks msg = true ∨ is_ack msg = true ∨ is_yes msg = true) :
    is_no msg = false := by
  cases hx : is_no msg
  · rfl
  · exfalso
    obtain ⟨h1, h2, h3⟩ := is_no_not_ack_like msg hx
    rcases h with h | h | h <;> simp_all

/-- C3: reopening a CLOSED session. -/
theorem C3_closed_reopen_resets (user_id : String) (now : Nat) (s : Session)
    (h : s.state = SState.CLOSED) :
    (get_or_create_session user_id now (some s)).fst.state = SState.ACTIVE ∧
    (get_or_create_session user_id now (some s)).fst.conversation_version =
      s.conversation_version + 1 ∧
    (get_or_create_session user_id now (some s)).fst.tries = 0 ∧
    (get_or_create_session user_id now (some s)).fst.asked_order_id_count = 0 ∧
    (get_or_create_session user_id now (some s)).fst.no_count = 0 ∧
    (get_or_create_session user_id now (some s)).fst.ai_attempts = 0 := by
  simp [get_or_create_session, h]

theorem C3_closed_reopen_resets_witness :
    (get_or_create_session ("u1") 7 (some { init_session 0 with state := SState.CLOSED, tries := 4, no_count := 2 })).fst.state = SState.ACTIVE ∧
    (get_or_create_session ("u1") 7 (some { init_session 0 with state := SState.CLOSED, tries := 4, no_count := 2 })).fst.conversation_version = 2 ∧
    (get_or_create_session ("u1") 7 (some { init_session 0 with state := SState.CLOSED, tries := 4, no_count := 2 })).fst.tries = 0 ∧
    (get_or_create_session ("u1") 7 (some { init_session 0 with state := SState.CLOSED, tries := 4, no_count := 2 })).fst.asked_order_id_count = 0 ∧
    (get_or_create_session ("u1") 7 (some { init_session 0 with state := SState.CLOSED, tries := 4, no_count := 2 })).fst.no_count = 0 ∧
    (get_or_create_session ("u1") 7 (some { init_session 0 with state := SState.CLOSED, tries := 4, no_count := 2 })).fst.ai_attempts = 0 :=
  C3_closed_reopen_resets ("u1") 7 _ rfl

/-- C10: mark_first_response is first-write-wins idempotent. -/
theorem C10_mark_first_response_first_write_wins (now1 now2 : Int) (r : SlaRecord) :
    mark_first_response now1 none = none ∧
    (r.first_response_at = none →
      mark_first_response now1 (some r) = some { r with first_response_at := some now1 }) ∧
    (∀ t : Int, r.first_response_at = some t → mark_first_response now1 (some r) = some r) ∧
    mark_first_response now2 (mark_first_response now1 (some r)) =
      mark_first_response now1 (some r) := by
  refine ⟨rfl, ?_, ?_, ?_⟩
  · intro h; simp [mark_first_response, h]
  · intro t h; simp [mark_first_response, h]
  · cases h : r.first_response_at <;> simp [mark_first_response, h]

theorem C10_mark_first_response_witness :
    mark_first_response 5 none = none ∧
    mark_first_response 5 (some ⟨"normal", 0, none, none⟩) =
      some ⟨"normal", 0, some 5, none⟩ ∧
    mark_first_response 9 (some ⟨"normal", 0, some 5, none⟩) =
      some ⟨"normal", 0, some 5, none⟩ ∧
    mark_first_response 9 (mark_first_response 5 (some ⟨"normal", 0, none, none⟩)) =
      mark_first_response 5 (some ⟨"normal", 0, none, none⟩) :=
  ⟨(C10_mark_first_response_first_write_wins 5 9 ⟨"normal", 0, none, none⟩).1,
    (C10_mark_first_response_first_write_wins 5 9 ⟨"normal", 0, none, none⟩).2.1 rfl,
    (C10_mark_first_response_first_write_wins 9 5 ⟨"normal", 0, some 5, none⟩).2.2.1 5 rfl,
    (C10_mark_first_response_first_write_wins 5 9 ⟨"normal", 0, none, none⟩).2.2.2⟩

/-- C9 evaluation: outside GCC business hours detect_sla_breach returns the
two-element tuple `([], [])` rather than a (empty) list of breach flags;
during incident mode it does return the empty list. -/
theorem C9_business_hours_guard_returns_pair :
    detect_sla_breach ⟨5, 12, 1000000⟩ false ⟨"normal", 0, none, none⟩ =
      some (BreachValue.pair_of_lists [] []) ∧
    BreachValue.pair_of_lists [] [] ≠ BreachValue.flag_list [] ∧
    detect_sla_breach ⟨6, 12, 1000000⟩ true ⟨"normal", 0, none, none⟩ =
      some (BreachValue.flag_list []) ∧
    detect_sla_breach ⟨6, 12, 1000000⟩ false ⟨"normal", 0, none, none⟩ =
      some (BreachValue.flag_list ["first_response_sla_breached", "resolution_sla_breached"]) := by
  refine ⟨by decide, by decide, by decide, by decide⟩

/-- C8 counterexample: with both `abuse_detected` and `retry_limit_exceeded`
present the later retry rule overwrites the abuse tier T4 with T2. -/
theorem C8_abuse_tier_overwritten :
    (route_escalation ⟨["abuse_detected", "retry_limit_exceeded"], none, none, none⟩).team =
      "trust_and_safety" ∧
    (route_escalation ⟨["abuse_detected", "retry_limit_exceeded"], none, none, none⟩).tier =
      "T2" ∧
    ¬((route_escalation ⟨["abuse_detected", "retry_limit_exceeded"], none, none, none⟩).tier =
      "T4") := by
  refine ⟨by decide, by decide, by decide⟩

/-- The region rule touches only the region field. -/
lemma apply_region_rule_fields (p : RoutePayload) (r : Routing) :
    (apply_region_rule p r).team = r.team ∧ (apply_region_rule p r).tier = r.tier ∧
      (apply_region_rule p r).priority = r.priority := by
  unfold apply_region_rule
  split_ifs <;> exact ⟨rfl, rfl, rfl⟩

/-- The decision-rule overrides do not touch the team. -/
lemma apply_decision_rule_overrides_team (p : RoutePayload) (r : Routing) :
    (apply_decision_rule_overrides p r).team = r.team := by
  unfold apply_decision_rule_overrides
  split_ifs <;> rfl

/-- The SLA tier rule does not touch the team. -/
lemma apply_sla_rule_team (p : RoutePayload) (r : Routing) :
    (apply_sla_rule p r).team = r.team := by
  unfold apply_sla_rule
  split_ifs <;> rfl

/-- The retry tier rule does not touch the team. -/
lemma apply_retry_rule_team (p : RoutePayload) (r : Routing) :
    (apply_retry_rule p r).team = r.team := by
  unfold apply_retry_rule
  split_ifs <;> rfl

/-- With the abuse flag present the team block ends in the hard override. -/
lemma apply_team_rules_abuse (p : RoutePayload) (r : Routing)
    (h : p.kpi_flags.contains ("abuse_detected") = true) :
    apply_team_rules p r =
      { team := "trust_and_safety", tier := "T4", region := r.region, priority := "urgent" } := by
  unfold apply_team_rules
  split_ifs <;> simp_all

/-- Without the abuse flag the team block keeps the incoming tier/priority. -/
lemma apply_team_rules_no_abuse (p : RoutePayload) (r : Routing)
    (h : p.kpi_flags.contains ("abuse_detected") = false) :
    (apply_team_rules p r).tier = r.tier ∧ (apply_team_rules p r).priority = r.priority := by
  unfold apply_team_rules
  split_ifs <;> simp_all

/-- C8 amended: the abuse flag always forces the trust-and-safety team and
sets T4/urgent, but the later tier rules still overwrite the tier; without
the abuse flag the tier assignment is monotonic non-decreasing across the
rule checks. -/
theorem C8_routing_rules (p : RoutePayload) :
    (p.kpi_flags.contains ("abuse_detected") = true →
      (route_escalation p).team = "trust_and_safety") ∧
    (p.kpi_flags.contains ("abuse_detected") = true →
      p.kpi_flags.contains ("retry_limit_exceeded") = false →
      p.kpi_flags.contains ("sla_breach_risk") = false →
      (route_escalation p).tier = "T4" ∧ (route_escalation p).priority = "urgent") ∧
    ((p.decision_rule = some ("ESCALATE_CRITICAL") ∨ p.decision_rule = some ("ESCALATE_ABUSE")) →
      (route_escalation p).tier = "T4" ∧ (route_escalation p).priority = "urgent") ∧
    (p.kpi_flags.contains ("abuse_detected") = false →
      tier_rank (apply_team_rules p default_routing).tier ≤
        tier_rank (apply_retry_rule p (apply_team_rules p default_routing)).tier ∧
      tier_rank (apply_retry_rule p (apply_team_rules p default_routing)).tier ≤
        tier_rank (apply_sla_rule p (apply_retry_rule p (apply_team_rules p default_routing))).tier ∧
      tier_rank (apply_sla_rule p (apply_retry_rule p (apply_team_rules p default_routing))).tier ≤
        tier_rank (apply_decision_rule_overrides p
          (apply_sla_rule p (apply_retry_rule p (apply_team_rules p default_routing)))).tier ∧
      (route_escalation p).tier =
        (apply_decision_rule_overrides p
          (apply_sla_rule p (apply_retry_rule p (apply_team_rules p default_routing)))).tier) := by
  refine ⟨?_, ?_, ?_, ?_⟩
  · intro h
    unfold route_escalation
    rw [(apply_region_rule_fields _ _).1, apply_decision_rule_overrides_team,
      apply_sla_rule_team, apply_retry_rule_team, apply_team_rules_abuse p _ h]
  · intro h1 h2 h3
    unfold route_escalation
    rw [apply_team_rules_abuse p _ h1]
    constructor
    · rw [(apply_region_rule_fields _ _).2.1]
      simp only [apply_retry_rule, apply_sla_rule, h2, h3, Bool.false_eq_true, if_false]
      unfold apply_decision_rule_overrides
      split_ifs <;> rfl
    · rw [(apply_region_rule_fields _ _).2.2]
      simp only [apply_retry_rule, apply_sla_rule, h2, h3, Bool.false_eq_true, if_false]
      unfold apply_decision_rule_overrides
      split_ifs <;> rfl
  · intro h
    unfold route_escalation
    rw [(apply_region_rule_fields _ _).2.1, (apply_region_rule_fields _ _).2.2]
    unfold apply_decision_rule_overrides
    rw [if_pos h]
    exact ⟨rfl, rfl⟩
  · intro h
    have ht1 : (apply_team_rules p default_routing).tier = "T1" :=
      (apply_team_rules_no_abuse p default_routing h).1.trans rfl
    refine ⟨?_, ?_, ?_, (apply_region_rule_fields _ _).2.1⟩
    · by_cases h2 : ("retry_limit_exceeded" ∈ p.kpi_flags) <;>
        simp [apply_retry_rule, h2, ht1, tier_rank]
    · by_cases h2 : ("retry_limit_exceeded" ∈ p.kpi_flags) <;>
        by_cases h3 : ("sla_breach_risk" ∈ p.kpi_flags) <;>
        simp [apply_retry_rule, apply_sla_rule, h2, h3, ht1, tier_rank]
    · by_cases h2 : ("retry_limit_exceeded" ∈ p.kpi_flags) <;>
        by_cases h3 : ("sla_breach_risk" ∈ p.kpi_flags) <;>
        by_cases h4 : (p.decision_rule = some ("ESCALATE_CRITICAL") ∨
          p.decision_rule = some ("ESCALATE_ABUSE")) <;>
        simp [apply_retry_rule, apply_sla_rule, apply_decision_rule_overrides,
          h2, h3, h4, ht1, tier_rank]

theorem C8_routing_rules_witness :
    (route_escalation ⟨["abuse_detected"], none, none, none⟩).team = "trust_and_safety" ∧
    (route_escalation ⟨["abuse_detected"], none, none, none⟩).tier = "T4" ∧
    (route_escalation ⟨["abuse_detected"], none, none, none⟩).priority = "urgent" ∧
    (route_escalation ⟨["sla_breach_risk"], some ("ESCALATE_CRITICAL"), none, none⟩).tier = "T4" ∧
    tier_rank (apply_retry_rule ⟨["retry_limit_exceeded"], none, none, none⟩
        (apply_team_rules ⟨["retry_limit_exceeded"], none, none, none⟩ default_routing)).tier ≤
      tier_rank (apply_sla_rule ⟨["retry_limit_exceeded"], none, none, none⟩
        (apply_retry_rule ⟨["retry_limit_exceeded"], none, none, none⟩
          (apply_team_rules ⟨["retry_limit_exceeded"], none, none, none⟩ default_routing))).tier :=
  ⟨(C8_routing_rules ⟨["abuse_detected"], none, none, none⟩).1 (by decide),
    ((C8_routing_rules ⟨["abuse_detected"], none, none, none⟩).2.1 (by decide) (by decide) (by decide)).1,
    ((C8_routing_rules ⟨["abuse_detected"], none, none, none⟩).2.1 (by decide) (by decide) (by decide)).2,
    ((C8_routing_rules ⟨["sla_breach_risk"], some ("ESCALATE_CRITICAL"), none, none⟩).2.2.1 (Or.inl rfl)).1,
    ((C8_routing_rules ⟨["retry_limit_exceeded"], none, none, none⟩).2.2.2 (by decide)).2.1⟩

/-- C6: three consecutive failures trip the breaker for the 10-minute
cooldown; the first health check past the deadline auto-recovers; a success
report restores health immediately. -/
theorem C6_circuit_breaker (st : VendorStore) (v : String)
    (hv : v = "zendesk" ∨ v = "freshdesk") (t1 t2 t3 now : Nat) :
    ∃ st3 : VendorStore,
      (((record_failure t1 st v).bind (fun s2 => record_failure t2 s2 v)).bind
        (fun s3 => record_failure t3 s3 v)) = some st3 ∧
      (now < t3 + DISABLE_DURATION_MIN * 60 →
        (is_vendor_healthy now st3 v).fst = false) ∧
      (t3 + DISABLE_DURATION_MIN * 60 ≤ now →
        (is_vendor_healthy now st3 v).fst = true ∧
        get_vendor (is_vendor_healthy now st3 v).snd v =
          some { healthy := true, failures := 0, disabled_until := none }) ∧
      (∃ st4 : VendorStore, record_success st v = some st4 ∧
        (is_vendor_healthy now st4 v).fst = true ∧
        get_vendor st4 v = some { healthy := true, failures := 0, disabled_until := none }) := by
  rcases hv with rfl | rfl
  · refine ⟨{ st with zendesk :=
      { healthy := false, failures := st.zendesk.failures + 3
        disabled_until := some (t3 + DISABLE_DURATION_MIN * 60) } }, ?_, ?_, ?_, ?_⟩
    · simp [record_failure, get_vendor, set_vendor, fail3_record]
    · intro hlt
      simp [is_vendor_healthy, get_vendor, is_vendor_healthy_record, hlt]
    · intro hge
      have hnlt : ¬(now < t3 + DISABLE_DURATION_MIN * 60) := by omega
      simp [is_vendor_healthy, get_vendor, set_vendor, is_vendor_healthy_record, hnlt]
    · refine ⟨{ st with zendesk := record_success_record st.zendesk }, ?_, ?_, ?_⟩
      · simp [record_success, get_vendor, set_vendor]
      · simp [is_vendor_healthy, get_vendor, is_vendor_healthy_record, record_success_record]
      · simp [get_vendor, record_success_record]
  · refine ⟨{ st with freshdesk :=
      { healthy := false, failures := st.freshdesk.failures + 3
        disabled_until := some (t3 + DISABLE_DURATION_MIN * 60) } }, ?_, ?_, ?_, ?_⟩
    · simp [record_failure, get_vendor, set_vendor, fail3_record]
    · intro hlt
      simp [is_vendor_healthy, get_vendor, set_vendor, is_vendor_healthy_record, hlt]
    · intro hge
      have hnlt : ¬(now < t3 + DISABLE_DURATION_MIN * 60) := by omega
      simp [is_vendor_healthy, get_vendor, set_vendor, is_vendor_healthy_record, hnlt]
    · refine ⟨{ st with freshdesk := record_success_record st.freshdesk }, ?_, ?_, ?_⟩
      · simp [record_success, get_vendor, set_vendor]
      · simp [is_vendor_healthy, get_vendor, set_vendor, is_vendor_healthy_record,
          record_success_record]
      · simp [get_vendor, set_vendor, record_success_record]

theorem C6_circuit_breaker_witness :
    ∃ st3 : VendorStore,
      (((record_failure 10 initial_vendor_store ("zendesk")).bind
          (fun s2 => record_failure 20 s2 ("zendesk"))).bind
        (fun s3 => record_failure 30 s3 ("zendesk"))) = some st3 ∧
      (is_vendor_healthy 600 st3 ("zendesk")).fst = false ∧
      (is_vendor_healthy 700 st3 ("zendesk")).fst = true := by
  obtain ⟨st3, hchain, hlt, _, _⟩ :=
    C6_circuit_breaker initial_vendor_store ("zendesk") (Or.inl rfl) 10 20 30 600
  obtain ⟨st3b, hchainb, _, hge, _⟩ :=
    C6_circuit_breaker initial_vendor_store ("zendesk") (Or.inl rfl) 10 20 30 700
  have he : st3b = st3 := Option.some.inj (hchainb.symm.trans hchain)
  exact ⟨st3, hchain, hlt (by decide), he ▸ (hge (by decide)).1⟩

/-- C7 counterexample: the freshdesk adapter is invoked although the
freshdesk health check fails, and no freshdesk health check ever appears in
the dispatch trace. -/
theorem C7_freshdesk_called_without_health_check :
    (is_vendor_healthy 0
      ⟨⟨false, 3, some 10000⟩, ⟨false, 3, some 10000⟩⟩ ("freshdesk")).fst = false ∧
    DispatchEvent.adapter_call ("freshdesk") ∈
      (dispatch_ticket ⟨0, false, ⟨"created", some ("z1")⟩, ⟨"created", some ("f1")⟩⟩
        ⟨⟨false, 3, some 10000⟩, ⟨false, 3, some 10000⟩⟩).2.2 ∧
    DispatchEvent.health_check ("freshdesk") false ∉
      (dispatch_ticket ⟨0, false, ⟨"created", some ("z1")⟩, ⟨"created", some ("f1")⟩⟩
        ⟨⟨false, 3, some 10000⟩, ⟨false, 3, some 10000⟩⟩).2.2 ∧
    DispatchEvent.health_check ("freshdesk") true ∉
      (dispatch_ticket ⟨0, false, ⟨"created", some ("z1")⟩, ⟨"created", some ("f1")⟩⟩
        ⟨⟨false, 3, some 10000⟩, ⟨false, 3, some 10000⟩⟩).2.2 := by
  refine ⟨by decide, by decide, by decide, by decide⟩

/-- C7 amended: outside incident mode zendesk is health-checked first and
its adapter is never invoked when the check fails; every adapter attempt is
reported back to the health store; freshdesk is attempted, without a health
check, exactly when zendesk did not succeed. -/
theorem C7_dispatch_health_gating (denv : DispatchEnv) (st : VendorStore)
    (h : denv.incident_mode = false) :
    ((is_vendor_healthy denv.now st ("zendesk")).fst = false →
      DispatchEvent.adapter_call ("zendesk") ∉ (dispatch_ticket denv st).2.2) ∧
    DispatchEvent.health_check ("zendesk") (is_vendor_healthy denv.now st ("zendesk")).fst ∈
      (dispatch_ticket denv st).2.2 ∧
    (DispatchEvent.adapter_call ("zendesk") ∈ (dispatch_ticket denv st).2.2 →
      DispatchEvent.vendor_report ("zendesk")
        (decide (denv.zendesk_result.status = "created")) ∈ (dispatch_ticket denv st).2.2) ∧
    (DispatchEvent.adapter_call ("freshdesk") ∈ (dispatch_ticket denv st).2.2 ↔
      ¬((is_vendor_healthy denv.now st ("zendesk")).fst = true ∧
        denv.zendesk_result.status = "created")) ∧
    (DispatchEvent.adapter_call ("freshdesk") ∈ (dispatch_ticket denv st).2.2 →
      DispatchEvent.vendor_report ("freshdesk")
        (decide (denv.freshdesk_result.status = "created")) ∈ (dispatch_ticket denv st).2.2) := by
  unfold dispatch_ticket freshdesk_fallback
  by_cases hz : (is_vendor_healthy denv.now st ("zendesk")).fst <;>
    by_cases hc : (denv.zendesk_result.status = "created") <;>
      simp [h, hz, hc]

theorem C7_dispatch_health_gating_witness :
    (is_vendor_healthy 0 ⟨⟨false, 3, some 10000⟩, ⟨true, 0, none⟩⟩ ("zendesk")).fst = false ∧
    DispatchEvent.adapter_call ("zendesk") ∉
      (dispatch_ticket ⟨0, false, ⟨"created", some ("z1")⟩, ⟨"created", some ("f1")⟩⟩
        ⟨⟨false, 3, some 10000⟩, ⟨true, 0, none⟩⟩).2.2 ∧
    DispatchEvent.vendor_report ("freshdesk") true ∈
      (dispatch_ticket ⟨0, false, ⟨"created", some ("z1")⟩, ⟨"created", some ("f1")⟩⟩
        ⟨⟨false, 3, some 10000⟩, ⟨true, 0, none⟩⟩).2.2 := by
  refine ⟨by decide, ?_, ?_⟩
  · exact (C7_dispatch_health_gating
      ⟨0, false, ⟨"created", some ("z1")⟩, ⟨"created", some ("f1")⟩⟩
      ⟨⟨false, 3, some 10000⟩, ⟨true, 0, none⟩⟩ rfl).1 (by decide)
  · exact (C7_dispatch_health_gating
      ⟨0, false, ⟨"created", some ("z1")⟩, ⟨"created", some ("f1")⟩⟩
      ⟨⟨false, 3, some 10000⟩, ⟨true, 0, none⟩⟩ rfl).2.2.2.2
      ((C7_dispatch_health_gating
        ⟨0, false, ⟨"created", some ("z1")⟩, ⟨"created", some ("f1")⟩⟩
        ⟨⟨false, 3, some 10000⟩, ⟨true, 0, none⟩⟩ rfl).2.2.2.1.mpr (by decide))

lemma is_no_false_of_delivery (msg : String) (hintent : detect_intent msg = "delivery_delay") :
    is_no msg = false := by
  cases hx : is_no msg
  · rfl
  · rcases is_no_intent msg hx with h | h <;> rw [hintent] at h <;> exact absurd h (by decide)

lemma safe_set_issue_summary_fields (s : Session) (i m : String) :
    (safe_set_issue_summary s i m).state = s.state ∧
    (safe_set_issue_summary s i m).tries = s.tries ∧
    (safe_set_issue_summary s i m).order_id = s.order_id ∧
    (safe_set_issue_summary s i m).asked_order_id_count = s.asked_order_id_count ∧
    (safe_set_issue_summary s i m).no_count = s.no_count ∧
    (safe_set_issue_summary s i m).ai_attempts = s.ai_attempts ∧
    (safe_set_issue_summary s i m).conversation_version = s.conversation_version := by
  simp only [safe_set_issue_summary]
  split_ifs <;> exact ⟨rfl, rfl, rfl, rfl, rfl, rfl, rfl⟩

lemma escalate_to_human_session (env : Env) (uid : String) (s : Session)
    (lang td : String) (tone : Option String) (kpis : List String)
    (prio : String × String) (rule reason : String) (xa xm : Option String) :
    (escalate_to_human env uid s lang td tone kpis prio rule reason xa xm).session =
      { s with state := SState.ESCALATION } := rfl

lemma escalate_to_human_events (env : Env) (uid : String) (s : Session)
    (lang td : String) (tone : Option String) (kpis : List String)
    (prio : String × String) (rule reason : String) (xa xm : Option String) :
    (escalate_to_human env uid s lang td tone kpis prio rule reason xa xm).events =
      [AuditEvent.escalation uid s.conversation_version reason rule prio.fst] := rfl

lemma escalate_to_human_call (env : Env) (uid : String) (s : Session)
    (lang td : String) (tone : Option String) (kpis : List String)
    (prio : String × String) (rule reason : String) (xa xm : Option String) :
    ((escalate_to_human env uid s lang td tone kpis prio rule reason xa xm).call.decision_rule
        = rule) ∧
    (escalate_to_human env uid s lang td tone kpis prio rule reason xa xm).call.context =
      { order_id := s.order_id, issue_summary := s.issue_summary, arabic_tone := tone
        last_ai_answer := xa, last_message := xm } := ⟨rfl, rfl⟩

/-- issue_phase never closes a session that was not already closed, and
touches neither the no-counter nor the conversation version. -/
lemma issue_phase_invariants (env : Env) (uid lang td : String) (tone : Option String)
    (kpis : List String) (prio : String × String) (intent msg : String) (s : Session)
    (hs : s.state ≠ SState.CLOSED) :
    (issue_phase env uid lang td tone kpis prio intent msg s).session.state ≠ SState.CLOSED ∧
    (issue_phase env uid lang td tone kpis prio intent msg s).session.no_count = s.no_count ∧
    (issue_phase env uid lang td tone kpis prio intent msg s).session.conversation_version =
      s.conversation_version := by
  unfold issue_phase
  rcases hE : extract_order_id msg with _ | oid <;>
    simp only [hE] <;>
    [set t := safe_set_issue_summary s intent msg with hT;
      set t := safe_set_issue_summary { s with order_id := some oid } intent msg with hT] <;>
    obtain ⟨f1, f2, f3, f4, f5, f6, f7⟩ := safe_set_issue_summary_fields _ intent msg <;>
    rw [← hT] at f1 f2 f3 f4 f5 f6 f7 <;>
    split_ifs <;>
    simp_all [escalate_to_human_session]


lemma get_or_create_not_closed (uid : String) (now : Nat) (s : Session)
    (h2 : s.state ≠ SState.CLOSED) :
    get_or_create_session uid now (some s) = (s, []) := by
  simp [get_or_create_session, h2]

lemma handle_prep_eq (env : Env) (uid msg : String) (kpi_in : List String) (s : Session)
    (h2 : s.state ≠ SState.CLOSED) :
    handle_prep env uid msg kpi_in (some s) =
      { session := prep_session env uid msg s
        kpi_signals := prep_kpis env kpi_in s
        language := resolve_language env.preferred_language s.language msg
        arabic_tone :=
          if resolve_language env.preferred_language s.language msg = "ar"
          then some (env.arabic_tone msg) else none
        intent := detect_intent msg
        priority :=
          (get_customer_priority uid (prep_session env uid msg s) (prep_kpis env kpi_in s)).fst
        pre_events :=
          (if env.incident_mode then [AuditEvent.incident_mode uid s.conversation_version]
            else []) ++
          (get_customer_priority uid (prep_session env uid msg s) (prep_kpis env kpi_in s)).snd } := by
  have hg := get_or_create_not_closed uid env.now s h2
  simp only [handle_prep, hg]
  rfl

@[simp] lemma prep_session_state (env : Env) (uid msg : String) (s : Session) :
    (prep_session env uid msg s).state = s.state := rfl

@[simp] lemma prep_session_no_count (env : Env) (uid msg : String) (s : Session) :
    (prep_session env uid msg s).no_count = s.no_count := rfl

@[simp] lemma prep_session_tries (env : Env) (uid msg : String) (s : Session) :
    (prep_session env uid msg s).tries = s.tries := rfl

@[simp] lemma prep_session_ai_attempts (env : Env) (uid msg : String) (s : Session) :
    (prep_session env uid msg s).ai_attempts = s.ai_attempts := rfl

@[simp] lemma prep_session_order_id (env : Env) (uid msg : String) (s : Session) :
    (prep_session env uid msg s).order_id = s.order_id := rfl

@[simp] lemma prep_session_asked (env : Env) (uid msg : String) (s : Session) :
    (prep_session env uid msg s).asked_order_id_count = s.asked_order_id_count := rfl

@[simp] lemma prep_session_version (env : Env) (uid msg : String) (s : Session) :
    (prep_session env uid msg s).conversation_version = s.conversation_version := rfl

@[simp] lemma prep_session_issue_summary (env : Env) (uid msg : String) (s : Session) :
    (prep_session env uid msg s).issue_summary = s.issue_summary := rfl


lemma handle_message_plain (env : Env) (uid msg : String) (kpi_in : List String) (s : Session)
    (h2 : s.state ≠ SState.CLOSED) (h1 : s.state ≠ SState.AWAITING_CONFIRMATION)
    (hno : is_no msg = false)
    (hir : detect_intent msg ≠ "reset") (hih : detect_intent msg ≠ "handoff")
    (hig : detect_intent msg ≠ "greeting") (hit : detect_intent msg ≠ "thanks")
    (hib : detect_intent msg ≠ "goodbye") :
    handle_message env uid msg kpi_in (some s) = routed_issue_result env uid msg kpi_in s 0 := by
  simp only [handle_message, handle_prep_eq env uid msg kpi_in s h2, routed_issue_result]
  simp [hno, hir, hih, hig, hit, hib, h1]

lemma issue_phase_no_count (env : Env) (uid lang td : String) (tone : Option String)
    (kpis : List String) (prio : String × String) (intent msg : String) (s : Session)
    (hs : s.state ≠ SState.CLOSED) :
    (issue_phase env uid lang td tone kpis prio intent msg s).session.no_count = s.no_count :=
  (issue_phase_invariants env uid lang td tone kpis prio intent msg s hs).2.1

lemma issue_phase_not_closed (env : Env) (uid lang td : String) (tone : Option String)
    (kpis : List String) (prio : String × String) (intent msg : String) (s : Session)
    (hs : s.state ≠ SState.CLOSED) :
    (issue_phase env uid lang td tone kpis prio intent msg s).session.state ≠ SState.CLOSED :=
  (issue_phase_invariants env uid lang td tone kpis prio intent msg s hs).1

lemma issue_phase_version (env : Env) (uid lang td : String) (tone : Option String)
    (kpis : List String) (prio : String × String) (intent msg : String) (s : Session)
    (hs : s.state ≠ SState.CLOSED) :
    (issue_phase env uid lang td tone kpis prio intent msg s).session.conversation_version =
      s.conversation_version :=
  (issue_phase_invariants env uid lang td tone kpis prio intent msg s hs).2.2

/-- The priority engine reads only the user id, the KPI signals, the restart
count, the conversation version and whether the state is ESCALATION. -/
lemma get_customer_priority_congr (uid : String) (s1 s2 : Session) (kpis : List String)
    (h1 : s1.state ≠ SState.ESCALATION) (h2 : s2.state ≠ SState.ESCALATION)
    (hv : s1.conversation_version = s2.conversation_version)
    (hr : s1.restart_count = s2.restart_count) :
    get_customer_priority uid s1 kpis = get_customer_priority uid s2 kpis := by
  unfold get_customer_priority
  split_ifs <;> simp_all

lemma handle_message_no_first (env : Env) (uid msg : String) (kpi_in : List String)
    (s : Session) (h2 : s.state ≠ SState.CLOSED) (h1 : s.state ≠ SState.AWAITING_CONFIRMATION)
    (hno : is_no msg = true) (hnc : s.no_count = 0) :
    handle_message env uid msg kpi_in (some s) = routed_issue_result env uid msg kpi_in s 1 := by
  have hint := is_no_intent msg hno
  have hir : detect_intent msg ≠ "reset" := by rcases hint with h | h <;> rw [h] <;> decide
  have hih : detect_intent msg ≠ "handoff" := by rcases hint with h | h <;> rw [h] <;> decide
  have hig : detect_intent msg ≠ "greeting" := by rcases hint with h | h <;> rw [h] <;> decide
  have hit : detect_intent msg ≠ "thanks" := by rcases hint with h | h <;> rw [h] <;> decide
  have hib : detect_intent msg ≠ "goodbye" := by rcases hint with h | h <;> rw [h] <;> decide
  simp only [handle_message, handle_prep_eq env uid msg kpi_in s h2, routed_issue_result]
  simp [hno, hir, hih, hig, hit, hib, h1, hnc]

lemma handle_message_second_no (env : Env) (uid msg : String) (kpi_in : List String)
    (s : Session) (h2 : s.state ≠ SState.CLOSED)
    (hno : is_no msg = true) (hnc : 1 ≤ s.no_count) :
    (handle_message env uid msg kpi_in (some s)).session.state = SState.CLOSED ∧
    AuditEvent.conversation_closed uid s.conversation_version ("user_declined_help") ∈
      (handle_message env uid msg kpi_in (some s)).events ∧
    (handle_message env uid msg kpi_in (some s)).reply =
      declined_close_reply (resolve_language env.preferred_language s.language msg) := by
  have hint := is_no_intent msg hno
  have hir : detect_intent msg ≠ "reset" := by rcases hint with h | h <;> rw [h] <;> decide
  have hih : detect_intent msg ≠ "handoff" := by rcases hint with h | h <;> rw [h] <;> decide
  have hcond : 2 ≤ s.no_count + 1 := by omega
  simp only [handle_message, handle_prep_eq env uid msg kpi_in s h2]
  simp [hno, hir, hih, hcond, plain_return]

set_option maxHeartbeats 1000000 in
lemma handle_message_awaiting_reissue (env : Env) (uid msg : String) (kpi_in : List String)
    (s : Session) (hA : s.state = SState.AWAITING_CONFIRMATION)
    (hno : is_no msg = false) (hth : is_thanks msg = false) (hack : is_ack msg = false)
    (hys : is_yes msg = false)
    (hir : detect_intent msg ≠ "reset") (hih : detect_intent msg ≠ "handoff")
    (hig : detect_intent msg ≠ "greeting") (hit : detect_intent msg ≠ "thanks")
    (hib : detect_intent msg ≠ "goodbye") :
    handle_message env uid msg kpi_in (some s) =
      routed_issue_result env uid msg kpi_in (confirmation_reset s) 0 := by
  have h2 : s.state ≠ SState.CLOSED := by rw [hA]; decide
  have hp : get_customer_priority uid (prep_session env uid msg s) (prep_kpis env kpi_in s) =
      get_customer_priority uid (prep_session env uid msg (confirmation_reset s))
        (prep_kpis env kpi_in s) := by
    refine get_customer_priority_congr uid _ _ _ ?_ ?_ rfl rfl
    · simp [hA]
    · exact fun h => nomatch h
  have hsess : ({ prep_session env uid msg (confirmation_reset s) with no_count := 0 } : Session) =
      confirmation_reset { prep_session env uid msg s with no_count := 0 } := rfl
  have hlang : resolve_language env.preferred_language (confirmation_reset s).language msg =
      resolve_language env.preferred_language s.language msg := rfl
  have htd : (prep_session env uid msg (confirmation_reset s)).text_direction =
      (prep_session env uid msg s).text_direction := rfl
  have hkp : prep_kpis env kpi_in (confirmation_reset s) = prep_kpis env kpi_in s := rfl
  have hver : (confirmation_reset s).conversation_version = s.conversation_version := rfl
  simp only [handle_message, handle_prep_eq env uid msg kpi_in s h2, routed_issue_result,
    hlang, htd, hkp, hver, hsess, ← hp]
  simp [hno, hth, hack, hys, hir, hih, hig, hit, hib, hA]
  and_intros <;> rfl

set_option maxHeartbeats 1000000 in
lemma handle_message_resets_no_count (env : Env) (uid msg : String) (kpi_in : List String)
    (s : Session) (h2 : s.state ≠ SState.CLOSED)
    (hno : is_no msg = false) (hih : detect_intent msg ≠ "handoff") :
    (handle_message env uid msg kpi_in (some s)).session.no_count = 0 := by
  have hic : ∀ lang td tone kpis prio intent,
      (issue_phase env uid lang td tone kpis prio intent msg
        (confirmation_reset { prep_session env uid msg s with no_count := 0 })).session.no_count
        = 0 := by
    intro lang td tone kpis prio intent
    refine (issue_phase_no_count env uid lang td tone kpis prio intent msg _ ?_).trans rfl
    simp [confirmation_reset]
  have hip : ∀ lang td tone kpis prio intent,
      (issue_phase env uid lang td tone kpis prio intent msg
        { prep_session env uid msg s with no_count := 0 }).session.no_count = 0 := by
    intro lang td tone kpis prio intent
    refine (issue_phase_no_count env uid lang td tone kpis prio intent msg _ ?_).trans rfl
    simpa using h2
  by_cases hr : detect_intent msg = "reset"
  · simp [handle_message, handle_prep_eq env uid msg kpi_in s h2, hr, reset_branch]
  · by_cases hg : detect_intent msg = "greeting"
    · simp [handle_message, handle_prep_eq env uid msg kpi_in s h2, hr, hih, hg, hno,
        plain_return]
    · by_cases ht : detect_intent msg = "thanks"
      · simp [handle_message, handle_prep_eq env uid msg kpi_in s h2, hr, hih, hg, ht, hno,
          plain_return]
      · by_cases hb : detect_intent msg = "goodbye"
        · simp [handle_message, handle_prep_eq env uid msg kpi_in s h2, hr, hih, hg, ht, hb,
            hno, plain_return]
        · by_cases hA : s.state = SState.AWAITING_CONFIRMATION
          · by_cases hy : (is_thanks msg || is_ack msg || is_yes msg) = true
            · simp [handle_message, handle_prep_eq env uid msg kpi_in s h2, hr, hih, hg, ht,
                hb, hA, hy, hno, plain_return]
            · have hy2 : (is_thanks msg || is_ack msg || is_yes msg) = false :=
                Bool.eq_false_iff.mpr hy
              simp [handle_message, handle_prep_eq env uid msg kpi_in s h2, hr, hih, hg, ht,
                hb, hA, hy2, hno]
              rw [← hA]
              exact hic _ _ _ _ _ _
          · simp [handle_message, handle_prep_eq env uid msg kpi_in s h2, hr, hih, hg, ht,
              hb, hA, hno]
            exact hip _ _ _ _ _ _

lemma escalate_to_human_rule (env : Env) (uid : String) (s : Session)
    (lang td : String) (tone : Option String) (kpis : List String)
    (prio : String × String) (rule reason : String) (xa xm : Option String) :
    (escalate_to_human env uid s lang td tone kpis prio rule reason xa xm).call.decision_rule =
      rule := rfl

lemma escalate_to_human_last_ai (env : Env) (uid : String) (s : Session)
    (lang td : String) (tone : Option String) (kpis : List String)
    (prio : String × String) (rule reason : String) (xa xm : Option String) :
    (escalate_to_human env uid s lang td tone kpis prio rule reason xa
      xm).call.context.last_ai_answer = xa := rfl

lemma issue_phase_ask_le (env : Env) (uid lang td : String) (tone : Option String)
    (kpis : List String) (prio : String × String) (msg : String) (s : Session)
    (hoid : pyTruthyOptStr s.order_id = false) (hext : extract_order_id msg = none)
    (hle : s.asked_order_id_count + 1 ≤ 2) :
    (issue_phase env uid lang td tone kpis prio ("delivery_delay") msg s).session.state =
      SState.WAITING_ORDER_ID ∧
    (issue_phase env uid lang td tone kpis prio ("delivery_delay") msg s).session.asked_order_id_count =
      s.asked_order_id_count + 1 ∧
    (issue_phase env uid lang td tone kpis prio ("delivery_delay") msg s).reply =
      ask_order_id_msg lang ∧
    (issue_phase env uid lang td tone kpis prio ("delivery_delay") msg s).escalations = [] := by
  obtain ⟨f1, f2, f3, f4, f5, f6, f7⟩ := safe_set_issue_summary_fields s ("delivery_delay") msg
  simp [issue_phase, hext, f3, f4, hoid, hle]

lemma issue_phase_ask_gt (env : Env) (uid lang td : String) (tone : Option String)
    (kpis : List String) (prio : String × String) (msg : String) (s : Session)
    (hoid : pyTruthyOptStr s.order_id = false) (hext : extract_order_id msg = none)
    (hgt : 3 ≤ s.asked_order_id_count + 1) :
    (issue_phase env uid lang td tone kpis prio ("delivery_delay") msg s).session.state =
      SState.ESCALATION ∧
    ∃ c, (issue_phase env uid lang td tone kpis prio ("delivery_delay") msg s).escalations = [c] ∧
      c.decision_rule = "order_id_missing_after_2_asks" := by
  obtain ⟨f1, f2, f3, f4, f5, f6, f7⟩ := safe_set_issue_summary_fields s ("delivery_delay") msg
  have hnle : ¬(s.asked_order_id_count + 1 ≤ 2) := by omega
  simp [issue_phase, hext, f3, f4, hoid, hnle, escalate_to_human_session,
    escalate_to_human_rule]

lemma issue_phase_ai (env : Env) (uid lang td : String) (tone : Option String)
    (kpis : List String) (prio : String × String) (msg : String) (s : Session)
    (oid ans : String)
    (hoid : s.order_id = some oid) (hne : oid ≠ "") (hext : extract_order_id msg = none)
    (hans : env.ai_answer = fun _ _ => ans) (hunc : is_uncertain ans = true) :
    (s.ai_attempts + 1 ≤ 2 →
      (issue_phase env uid lang td tone kpis prio ("delivery_delay") msg s).session.state =
        SState.ACTIVE ∧
      (issue_phase env uid lang td tone kpis prio ("delivery_delay") msg s).session.ai_attempts =
        s.ai_attempts + 1 ∧
      (issue_phase env uid lang td tone kpis prio ("delivery_delay") msg s).reply =
        clarify_msg lang (hold_msg lang oid) ∧
      (issue_phase env uid lang td tone kpis prio ("delivery_delay") msg s).escalations = []) ∧
    (3 ≤ s.ai_attempts + 1 →
      (issue_phase env uid lang td tone kpis prio ("delivery_delay") msg s).session.state =
        SState.ESCALATION ∧
      ∃ c, (issue_phase env uid lang td tone kpis prio ("delivery_delay") msg s).escalations = [c] ∧
        c.decision_rule = "ai_uncertain_after_attempts" ∧
        c.context.last_ai_answer = some (ans.take 800)) := by
  obtain ⟨f1, f2, f3, f4, f5, f6, f7⟩ := safe_set_issue_summary_fields s ("delivery_delay") msg
  constructor
  · intro hle
    simp [issue_phase, hext, f3, f6, hoid, hne, hans, hunc, hle, pyTruthyOptStr,
      optDisplay, MAX_AI_ATTEMPTS_BEFORE_ESCALATION]
  · intro hgt
    have hnle : ¬(s.ai_attempts + 1 ≤ 2) := by omega
    have hlt : 2 < s.ai_attempts + 1 := by omega
    simp [issue_phase, hext, f3, f6, hoid, hne, hans, hunc, hnle, hlt, hgt, pyTruthyOptStr,
      optDisplay, escalate_to_human_session, escalate_to_human_rule,
      escalate_to_human_last_ai, MAX_AI_ATTEMPTS_BEFORE_ESCALATION]

lemma resolve_language_mem (pref sl : Option String) (msg : String) :
    resolve_language pref sl msg = "en" ∨ resolve_language pref sl msg = "ar" := by
  simp only [resolve_language]
  split_ifs <;> first | assumption | exact Or.inl rfl

/-- C5: with an order-related message and no order id on file, handle_message
asks for the order id at most twice (WAITING_ORDER_ID, counter incremented),
and on the ask that would exceed two it escalates with decision rule
order_id_missing_after_2_asks instead of asking again. -/
theorem C5_order_id_ask_bound (env : Env) (uid : String) (kpi_in : List String)
    (s : Session) (msg : String)
    (h1 : s.state ≠ SState.AWAITING_CONFIRMATION) (h2 : s.state ≠ SState.CLOSED)
    (hoid : pyTruthyOptStr s.order_id = false)
    (hintent : detect_intent msg = "delivery_delay")
    (hext : extract_order_id msg = none) :
    (s.asked_order_id_count + 1 ≤ 2 →
      (handle_message env uid msg kpi_in (some s)).session.state = SState.WAITING_ORDER_ID ∧
      (handle_message env uid msg kpi_in (some s)).session.asked_order_id_count =
        s.asked_order_id_count + 1 ∧
      (handle_message env uid msg kpi_in (some s)).reply =
        ask_order_id_msg (resolve_language env.preferred_language s.language msg) ∧
      (handle_message env uid msg kpi_in (some s)).escalations = []) ∧
    (3 ≤ s.asked_order_id_count + 1 →
      (handle_message env uid msg kpi_in (some s)).session.state = SState.ESCALATION ∧
      ∃ c, (handle_message env uid msg kpi_in (some s)).escalations = [c] ∧
        c.decision_rule = "order_id_missing_after_2_asks") := by
  have hno := is_no_false_of_delivery msg hintent
  have hir : detect_intent msg ≠ "reset" := by rw [hintent]; decide
  have hih : detect_intent msg ≠ "handoff" := by rw [hintent]; decide
  have hig : detect_intent msg ≠ "greeting" := by rw [hintent]; decide
  have hit : detect_intent msg ≠ "thanks" := by rw [hintent]; decide
  have hib : detect_intent msg ≠ "goodbye" := by rw [hintent]; decide
  rw [handle_message_plain env uid msg kpi_in s h2 h1 hno hir hih hig hit hib]
  constructor
  · intro hle
    obtain ⟨a1, a2, a3, a4⟩ := issue_phase_ask_le env uid
      (resolve_language env.preferred_language s.language msg)
      (prep_session env uid msg s).text_direction
      (if resolve_language env.preferred_language s.language msg = "ar"
        then some (env.arabic_tone msg) else none)
      (prep_kpis env kpi_in s)
      (get_customer_priority uid (prep_session env uid msg s) (prep_kpis env kpi_in s)).fst
      msg { prep_session env uid msg s with no_count := 0 } hoid hext hle
    simp only [routed_issue_result, hintent]
    exact ⟨a1, a2, a3, a4⟩
  · intro hgt
    obtain ⟨a1, a2⟩ := issue_phase_ask_gt env uid
      (resolve_language env.preferred_language s.language msg)
      (prep_session env uid msg s).text_direction
      (if resolve_language env.preferred_language s.language msg = "ar"
        then some (env.arabic_tone msg) else none)
      (prep_kpis env kpi_in s)
      (get_customer_priority uid (prep_session env uid msg s) (prep_kpis env kpi_in s)).fst
      msg { prep_session env uid msg s with no_count := 0 } hoid hext hgt
    simp only [routed_issue_result, hintent]
    exact ⟨a1, a2⟩

/-- C2: with an order issue and an order id on file, an uncertainty-marked
AI answer yields exactly one multiple-choice clarifying question while the
per-issue attempt counter stays at most 2, and the attempt that exceeds the
bound escalates with decision rule ai_uncertain_after_attempts, carrying the
last AI answer (truncated to 800 chars) in the escalation context. -/
theorem C2_ai_uncertainty_bound (env : Env) (uid : String) (kpi_in : List String)
    (s : Session) (msg oid ans : String)
    (h1 : s.state ≠ SState.AWAITING_CONFIRMATION) (h2 : s.state ≠ SState.CLOSED)
    (hoid : s.order_id = some oid) (hne : oid ≠ "")
    (hintent : detect_intent msg = "delivery_delay")
    (hext : extract_order_id msg = none)
    (hans : env.ai_answer = fun _ _ => ans)
    (hunc : is_uncertain ans = true) :
    (s.ai_attempts + 1 ≤ 2 →
      (handle_message env uid msg kpi_in (some s)).session.state = SState.ACTIVE ∧
      (handle_message env uid msg kpi_in (some s)).session.ai_attempts = s.ai_attempts + 1 ∧
      (handle_message env uid msg kpi_in (some s)).reply =
        clarify_msg (resolve_language env.preferred_language s.language msg)
          (hold_msg (resolve_language env.preferred_language s.language msg) oid) ∧
      (handle_message env uid msg kpi_in (some s)).escalations = []) ∧
    (3 ≤ s.ai_attempts + 1 →
      (handle_message env uid msg kpi_in (some s)).session.state = SState.ESCALATION ∧
      ∃ c, (handle_message env uid msg kpi_in (some s)).escalations = [c] ∧
        c.decision_rule = "ai_uncertain_after_attempts" ∧
        c.context.last_ai_answer = some (ans.take 800)) := by
  have hno := is_no_false_of_delivery msg hintent
  have hir : detect_intent msg ≠ "reset" := by rw [hintent]; decide
  have hih : detect_intent msg ≠ "handoff" := by rw [hintent]; decide
  have hig : detect_intent msg ≠ "greeting" := by rw [hintent]; decide
  have hit : detect_intent msg ≠ "thanks" := by rw [hintent]; decide
  have hib : detect_intent msg ≠ "goodbye" := by rw [hintent]; decide
  rw [handle_message_plain env uid msg kpi_in s h2 h1 hno hir hih hig hit hib]
  obtain ⟨b1, b2⟩ := issue_phase_ai env uid
    (resolve_language env.preferred_language s.language msg)
    (prep_session env uid msg s).text_direction
    (if resolve_language env.preferred_language s.language msg = "ar"
      then some (env.arabic_tone msg) else none)
    (prep_kpis env kpi_in s)
    (get_customer_priority uid (prep_session env uid msg s) (prep_kpis env kpi_in s)).fst
    msg { prep_session env uid msg s with no_count := 0 } oid ans hoid hne hext hans hunc
  constructor
  · intro hle
    obtain ⟨a1, a2, a3, a4⟩ := b1 hle
    simp only [routed_issue_result, hintent]
    exact ⟨a1, a2, a3, a4⟩
  · intro hgt
    obtain ⟨a1, a2⟩ := b2 hgt
    simp only [routed_issue_result, hintent]
    exact ⟨a1, a2⟩


/-- C1: dispatch in AWAITING_CONFIRMATION. -/
theorem C1_awaiting_confirmation_dispatch (env : Env) (uid : String) (kpi_in : List String)
    (s : Session) (msg : String) (hA : s.state = SState.AWAITING_CONFIRMATION) :
    (is_thanks msg = true ∨ is_ack msg = true ∨ is_yes msg = true →
      (handle_message env uid msg kpi_in (some s)).session.state =
        SState.AWAITING_CONFIRMATION ∧
      ((handle_message env uid msg kpi_in (some s)).reply =
          thanks_reply (resolve_language env.preferred_language s.language msg) ∨
        (handle_message env uid msg kpi_in (some s)).reply =
          confirm_courtesy_reply (resolve_language env.preferred_language s.language msg))) ∧
    (is_no msg = true →
      (handle_message env uid msg kpi_in (some s)).session.state = SState.CLOSED) ∧
    (is_thanks msg = false → is_ack msg = false → is_yes msg = false → is_no msg = false →
      detect_intent msg ≠ "reset" → detect_intent msg ≠ "handoff" →
      detect_intent msg ≠ "greeting" → detect_intent msg ≠ "thanks" →
      detect_intent msg ≠ "goodbye" →
      handle_message env uid msg kpi_in (some s) =
        routed_issue_result env uid msg kpi_in (confirmation_reset s) 0 ∧
      (confirmation_reset s).state = SState.ACTIVE ∧
      (confirmation_reset s).tries = 0 ∧ (confirmation_reset s).ai_attempts = 0) := by
  have h2 : s.state ≠ SState.CLOSED := by rw [hA]; exact fun h => nomatch h
  refine ⟨?_, ?_, ?_⟩
  · intro h
    have hno := ack_like_not_no msg h
    by_cases hth : is_thanks msg = true
    · have hint := is_thanks_intent msg hth
      constructor
      · simp [handle_message, handle_prep_eq env uid msg kpi_in s h2, hint, hno,
          plain_return, hA]
      · left
        simp [handle_message, handle_prep_eq env uid msg kpi_in s h2, hint, hno,
          plain_return]
    · have hay : is_ack msg = true ∨ is_yes msg = true := by
        rcases h with h | h
        · exact absurd h hth
        · exact h
      have hyb : (is_thanks msg || is_ack msg || is_yes msg) = true := by
        rcases hay with h | h <;> simp [h]
      rcases is_ack_yes_intent msg hay with hint | hint
      · constructor
        · simp [handle_message, handle_prep_eq env uid msg kpi_in s h2, hint, hno,
            hyb, plain_return, hA]
        · right
          simp [handle_message, handle_prep_eq env uid msg kpi_in s h2, hint, hno,
            hyb, plain_return, hA]
      · constructor
        · simp [handle_message, handle_prep_eq env uid msg kpi_in s h2, hint, hno,
            hyb, plain_return, hA]
        · right
          simp [handle_message, handle_prep_eq env uid msg kpi_in s h2, hint, hno,
            hyb, plain_return, hA]
  · intro h
    obtain ⟨h1, h2n, h3⟩ := is_no_not_ack_like msg h
    have hyb : (is_thanks msg || is_ack msg || is_yes msg) = false := by
      simp [h1, h2n, h3]
    by_cases hcnt : 2 ≤ s.no_count + 1
    · rcases is_no_intent msg h with hint | hint <;>
        simp [handle_message, handle_prep_eq env uid msg kpi_in s h2, hint, h, hcnt,
          plain_return]
    · rcases is_no_intent msg h with hint | hint <;>
        simp [handle_message, handle_prep_eq env uid msg kpi_in s h2, hint, h, hcnt,
          hyb, hA, plain_return]
  · intro hth hack hys hno hir hih hig hit hib
    exact ⟨handle_message_awaiting_reissue env uid msg kpi_in s hA hno hth hack hys
      hir hih hig hit hib, rfl, rfl, rfl⟩

theorem C1_awaiting_witness :
    (handle_message probe_env ("u1") ("ok") []
      (some { init_session 0 with state := SState.AWAITING_CONFIRMATION })).session.state =
      SState.AWAITING_CONFIRMATION ∧
    (handle_message probe_env ("u1") ("no") []
      (some { init_session 0 with state := SState.AWAITING_CONFIRMATION })).session.state =
      SState.CLOSED ∧
    handle_message probe_env ("u1") ("my refund is missing") []
      (some { init_session 0 with state := SState.AWAITING_CONFIRMATION }) =
      routed_issue_result probe_env ("u1") ("my refund is missing") []
        (confirmation_reset { init_session 0 with state := SState.AWAITING_CONFIRMATION }) 0 := by
  refine ⟨?_, ?_, ?_⟩
  · exact ((C1_awaiting_confirmation_dispatch probe_env ("u1") []
      { init_session 0 with state := SState.AWAITING_CONFIRMATION } ("ok") rfl).1
      (Or.inr (Or.inl (by decide)))).1
  · exact (C1_awaiting_confirmation_dispatch probe_env ("u1") []
      { init_session 0 with state := SState.AWAITING_CONFIRMATION } ("no") rfl).2.1
      (by decide)
  · exact ((C1_awaiting_confirmation_dispatch probe_env ("u1") []
      { init_session 0 with state := SState.AWAITING_CONFIRMATION }
      ("my refund is missing") rfl).2.2 (by decide) (by decide) (by decide) (by decide)
      (by decide) (by decide) (by decide) (by decide) (by decide)).1

theorem C1_awaiting_greeting_counterexample :
    (handle_message probe_env ("u1c") ("hi") []
      (some { init_session 0 with
        state := SState.AWAITING_CONFIRMATION
        tries := 5 })).session.state = SState.AWAITING_CONFIRMATION ∧
    (handle_message probe_env ("u1c") ("hi") []
      (some { init_session 0 with
        state := SState.AWAITING_CONFIRMATION
        tries := 5 })).session.tries = 5 := by
  constructor <;> rfl

/-- C4: two consecutive no replies close the session. -/
theorem C4_double_no_closes (env1 env2 : Env) (uid : String) (k1 k2 : List String)
    (s : Session) (msg1 msg2 : String)
    (hstate : s.state = SState.ACTIVE) (hnc : s.no_count = 0)
    (h1 : is_no msg1 = true) (h2 : is_no msg2 = true) :
    (handle_message env1 uid msg1 k1 (some s)).session.state ≠ SState.CLOSED ∧
    (handle_message env1 uid msg1 k1 (some s)).session.no_count = 1 ∧
    (handle_message env2 uid msg2 k2
        (some (handle_message env1 uid msg1 k1 (some s)).session)).session.state =
      SState.CLOSED ∧
    AuditEvent.conversation_closed uid s.conversation_version ("user_declined_help") ∈
      (handle_message env2 uid msg2 k2
        (some (handle_message env1 uid msg1 k1 (some s)).session)).events ∧
    (∀ env3 k3 msg3 s3, s3.state ≠ SState.CLOSED → is_no msg3 = false →
      detect_intent msg3 ≠ "handoff" →
      (handle_message env3 uid msg3 k3 (some s3)).session.no_count = 0) := by
  have hC : s.state ≠ SState.CLOSED := by rw [hstate]; exact fun h => nomatch h
  have hAw : s.state ≠ SState.AWAITING_CONFIRMATION := by
    rw [hstate]; exact fun h => nomatch h
  have he1 := handle_message_no_first env1 uid msg1 k1 s hC hAw h1 hnc
  have hps : ({ prep_session env1 uid msg1 s with no_count := 1 } : Session).state ≠
      SState.CLOSED := by simpa using hC
  have p1 : (handle_message env1 uid msg1 k1 (some s)).session.state ≠ SState.CLOSED := by
    rw [he1]
    simp only [routed_issue_result]
    exact issue_phase_not_closed _ _ _ _ _ _ _ _ _ _ hps
  have p2 : (handle_message env1 uid msg1 k1 (some s)).session.no_count = 1 := by
    rw [he1]
    simp only [routed_issue_result]
    exact (issue_phase_no_count _ _ _ _ _ _ _ _ _ _ hps).trans rfl
  have pv : (handle_message env1 uid msg1 k1 (some s)).session.conversation_version =
      s.conversation_version := by
    rw [he1]
    simp only [routed_issue_result]
    exact (issue_phase_version _ _ _ _ _ _ _ _ _ _ hps).trans rfl
  have hcnt1 : 1 ≤ (handle_message env1 uid msg1 k1 (some s)).session.no_count := by
    rw [p2]
  obtain ⟨p3, p4, _⟩ := handle_message_second_no env2 uid msg2 k2
    (handle_message env1 uid msg1 k1 (some s)).session p1 h2 hcnt1
  rw [pv] at p4
  refine ⟨p1, p2, p3, p4, ?_⟩
  intro env3 k3 msg3 s3 hc3 hno3 hih3
  exact handle_message_resets_no_count env3 uid msg3 k3 s3 hc3 hno3 hih3

theorem C4_double_no_witness :
    is_no ("no") = true ∧
    (handle_message probe_env ("u4") ("no") [] (some (init_session 0))).session.state ≠
      SState.CLOSED ∧
    (handle_message probe_env ("u4") ("no") []
      (some (handle_message probe_env ("u4") ("no") []
        (some (init_session 0))).session)).session.state = SState.CLOSED := by
  refine ⟨by decide, ?_, ?_⟩
  · exact (C4_double_no_closes probe_env probe_env ("u4") [] [] (init_session 0)
      ("no") ("no") rfl rfl (by decide) (by decide)).1
  · exact (C4_double_no_closes probe_env probe_env ("u4") [] [] (init_session 0)
      ("no") ("no") rfl rfl (by decide) (by decide)).2.2.1

theorem C4_handoff_keeps_counter_counterexample :
    is_no ("agent") = false ∧
    (handle_message probe_env ("u4c") ("agent") []
      (some { init_session 0 with no_count := 1 })).session.no_count = 1 := by
  constructor <;> rfl

theorem C5_order_id_witness :
    (handle_message probe_env ("u5") ("my order is late") []
      (some (init_session 0))).session.state = SState.WAITING_ORDER_ID ∧
    (handle_message probe_env ("u5") ("my order is late") []
      (some (init_session 0))).session.asked_order_id_count = 1 ∧
    (handle_message probe_env ("u5") ("my order is late") []
      (some { init_session 0 with asked_order_id_count := 2 })).session.state =
      SState.ESCALATION := by
  refine ⟨?_, ?_, ?_⟩
  · exact ((C5_order_id_ask_bound probe_env ("u5") [] (init_session 0)
      ("my order is late") (by decide) (by decide) (by decide) (by decide) (by decide)).1
      (by decide)).1
  · exact ((C5_order_id_ask_bound probe_env ("u5") [] (init_session 0)
      ("my order is late") (by decide) (by decide) (by decide) (by decide) (by decide)).1
      (by decide)).2.1
  · exact ((C5_order_id_ask_bound probe_env ("u5") []
      { init_session 0 with asked_order_id_count := 2 }
      ("my order is late") (by decide) (by decide) (by decide) (by decide) (by decide)).2
      (by decide)).1

theorem C2_ai_uncertainty_witness :
    (handle_message probe_env_unc ("u2") ("my delivery is late") []
      (some { init_session 0 with order_id := some ("784512") })).session.state =
      SState.ACTIVE ∧
    (handle_message probe_env_unc ("u2") ("my delivery is late") []
      (some { init_session 0 with order_id := some ("784512") })).escalations = [] ∧
    (handle_message probe_env_unc ("u2") ("my delivery is late") []
      (some { init_session 0 with
        order_id := some ("784512")
        ai_attempts := 2 })).session.state = SState.ESCALATION := by
  refine ⟨?_, ?_, ?_⟩
  · exact ((C2_ai_uncertainty_bound probe_env_unc ("u2") []
      { init_session 0 with order_id := some ("784512") } ("my delivery is late")
      ("784512") ("I cannot confidently say.") (by decide) (by decide) rfl (by decide)
      (by decide) (by decide) rfl (by decide)).1 (by decide)).1
  · exact ((C2_ai_uncertainty_bound probe_env_unc ("u2") []
      { init_session 0 with order_id := some ("784512") } ("my delivery is late")
      ("784512") ("I cannot confidently say.") (by decide) (by decide) rfl (by decide)
      (by decide) (by decide) rfl (by decide)).1 (by decide)).2.2.2
  · exact ((C2_ai_uncertainty_bound probe_env_unc ("u2") []
      { init_session 0 with
        order_id := some ("784512")
        ai_attempts := 2 }
      ("my delivery is late") ("784512") ("I cannot confidently say.") (by decide)
      (by decide) rfl (by decide) (by decide) (by decide) rfl (by decide)).2
      (by decide)).1
